import Mathlib

/-!
Verification development for the schema-translator mapping core.

This file shallowly embeds the Column Profiler (`src/app/core/discovery.py`)
and the Mapping Resolver (`src/app/core/resolver.py`) of the repository,
together with the data model of `src/app/shared/models.py`, and proves the
specification's claims about them.

Modelling conventions:
* Python floats are modelled as exact rationals (`ℚ`); the constants
  0.75, 0.5, 0.9, 0.7, 0.6, ... of the source appear as 3/4, 1/2, 9/10, ...
* The external fuzzy string library (fuzzywuzzy) and the external
  pandas/dateutil parsers are not code of this repository; they enter the
  embedding as function parameters (`fuzzRatio`, `parsesAsNumeric`,
  `parsesAsDate`, ...).  Theorems that need facts about them (for example
  that fuzz ratios lie in 0..100) take those facts as hypotheses, and
  concrete examples instantiate them with functions that agree with the
  real libraries on the inputs actually used.
* `datetime.utcnow()` timestamps are modelled as natural numbers supplied
  by the caller (`now`, or a clock `ts : Nat → Nat` for batch runs).
* pydantic model equality (used by `_resolve_conflicts` via `==`) is
  structural equality on all fields, which the derived `DecidableEq`
  instances reproduce.
-/

namespace SchemaXlat

/-- `ColumnType` of `models.py` (a string enum). -/
inductive ColumnType where
  | string
  | int
  | decimal
  | bool
  | date
  | datetime
  | enum
deriving DecidableEq

/-- `SourceColumn` of `models.py`. -/
structure SourceColumn where
  tenant : String
  table : String
  column : String
  declaredType : Option String := none
  description : Option String := none
  nullable : Bool := true
deriving DecidableEq

/-- `ColumnProfile` of `models.py`. -/
structure ColumnProfile where
  source_column : SourceColumn
  total_rows : Nat
  non_null_count : Nat
  distinct_count : Nat
  distinct_ratio : ℚ
  sample_values : List String
  inferred_type : ColumnType
  date_patterns : List String := []
  currency_symbols : List String := []
  cooccurring_columns : List String := []
deriving DecidableEq

/-- `MappingProposal` of `models.py`. -/
structure MappingProposal where
  canonical_field : String
  justification : String
  transform_hint : Option String := none
  assumptions : List String := []
  confidence : ℚ
deriving DecidableEq

/-- `AlternativeMapping` of `models.py`. -/
structure AlternativeMapping where
  canonical_field : String
  confidence : ℚ
  note : Option String := none
deriving DecidableEq

/-- `LLMResponse` of `models.py`. -/
structure LLMResponse where
  proposed_mappings : List MappingProposal
  alternatives : List AlternativeMapping := []
  reasoning : Option String := none
deriving DecidableEq

/-- `MappingScore` of `models.py`. -/
structure MappingScore where
  llm_confidence : ℚ
  name_similarity : ℚ
  type_compatibility : ℚ
  value_range_match : ℚ
  final_score : ℚ
  auto_accept : Bool
  needs_hitl : Bool
deriving DecidableEq

/-- `ColumnMapping` of `models.py`; `created_at` (a `datetime` filled from
`utcnow`) is modelled as a `Nat` timestamp supplied by the caller. -/
structure ColumnMapping where
  source_column : SourceColumn
  canonical_field : Option String := none
  mapping_score : Option MappingScore := none
  llm_response : Option LLMResponse := none
  transform_rule : Option String := none
  status : String := "pending"
  human_feedback : Option String := none
  created_at : Nat := 0
deriving DecidableEq

/-! ## Small string/list machinery shared by the embeddings -/

/-- Keep the first occurrence of every element (the order `pandas.unique`
and Python loops preserve). -/
def dedupFirstAux {α : Type} [DecidableEq α] (seen : List α) : List α → List α
  | [] => []
  | a :: as => if a ∈ seen then dedupFirstAux seen as else a :: dedupFirstAux (a :: seen) as

/-- Deduplicate preserving first occurrences. -/
def dedupFirst {α : Type} [DecidableEq α] (l : List α) : List α :=
  dedupFirstAux [] l

/-- Does `hay` start with `needle`? -/
def startsWithList {α : Type} [DecidableEq α] : List α → List α → Bool
  | [], _ => true
  | _ :: _, [] => false
  | a :: as, b :: bs => decide (a = b) && startsWithList as bs

/-- Does `hay` contain `needle` as a contiguous sublist? -/
def containsSubList {α : Type} [DecidableEq α] (needle : List α) : List α → Bool
  | [] => startsWithList needle []
  | b :: bs => startsWithList needle (b :: bs) || containsSubList needle bs

/-- Python's `needle in hay` substring test. -/
def strContains (hay needle : String) : Bool :=
  containsSubList needle.toList hay.toList

/-- Python `str.lower()` on the character list (ASCII case mapping, which
covers every string this development manipulates). -/
def strLower (s : String) : String :=
  String.mk (s.toList.map Char.toLower)

/-- Consume exactly `n` leading digits, returning the rest. -/
def matchDigitsRun : Nat → List Char → Option (List Char)
  | 0, cs => some cs
  | _ + 1, [] => none
  | n + 1, c :: cs => if c.isDigit then matchDigitsRun n cs else none

/-- Consume one literal character. -/
def matchLit (ch : Char) : List Char → Option (List Char)
  | [] => none
  | c :: cs => if c = ch then some cs else none

/-- Consume one or two leading digits, greedily (equivalent to the regex
`\d{1,2}` followed by a non-digit requirement, since backtracking to the
shorter alternative can never succeed when the greedy one fails here). -/
def matchDigits12 : List Char → Option (List Char)
  | [] => none
  | [c] => if c.isDigit then some [] else none
  | c :: d :: cs =>
    if c.isDigit then (if d.isDigit then some cs else some (d :: cs)) else none

/-- The tail left after the regex `\d{4}-\d{2}-\d{2}` consumes a prefix. -/
def ymdTail (cs : List Char) : Option (List Char) :=
  ((((matchDigitsRun 4 cs).bind (matchLit '-')).bind (matchDigitsRun 2)).bind
    (matchLit '-')).bind (matchDigitsRun 2)

/-- `re.match(r'\d{4}-\d{2}-\d{2}', s)` (prefix match). -/
def matchYmdPre (s : String) : Bool :=
  (ymdTail s.toList).isSome

/-- `^\d{4}-\d{2}-\d{2}$` (full match, the `YYYY-MM-DD` pattern). -/
def matchYmdFull (s : String) : Bool :=
  decide (ymdTail s.toList = some [])

/-- The tail left after `\d{1,2}/\d{1,2}/\d{4}` consumes a prefix. -/
def mdyTail (cs : List Char) : Option (List Char) :=
  ((((matchDigits12 cs).bind (matchLit '/')).bind matchDigits12).bind
    (matchLit '/')).bind (matchDigitsRun 4)

/-- `re.match(r'\d{1,2}/\d{1,2}/\d{4}', s)` (prefix match). -/
def matchMdyPre (s : String) : Bool :=
  (mdyTail s.toList).isSome

/-- `^\d{1,2}/\d{1,2}/\d{4}$` (full match, `MM/DD/YYYY` / `DD/MM/YYYY`). -/
def matchMdyFull (s : String) : Bool :=
  decide (mdyTail s.toList = some [])

/-- `^\d{4}/\d{1,2}/\d{1,2}$` (full match, the `YYYY/MM/DD` pattern). -/
def matchYmdSlashFull (s : String) : Bool :=
  decide (((((matchDigitsRun 4 s.toList).bind (matchLit '/')).bind matchDigits12).bind
    (matchLit '/')).bind matchDigits12 = some [])

/-- `^\d{4}-\d{2}-\d{2}T\d{2}:\d{2}:\d{2}` (prefix match, `ISO_DATETIME`). -/
def matchIsoDatetime (s : String) : Bool :=
  (((((((ymdTail s.toList).bind (matchLit 'T')).bind (matchDigitsRun 2)).bind
    (matchLit ':')).bind (matchDigitsRun 2)).bind (matchLit ':')).bind
    (matchDigitsRun 2)).isSome

/-- `re.match(r'\d+', s)`: at least one leading digit. -/
def matchLeadingDigit (s : String) : Bool :=
  match s.toList with
  | [] => false
  | c :: _ => c.isDigit

/-- `re.match(r'[A-Z]+\d+', s)`: a nonempty run of uppercase letters followed
by a digit (greedy matching is equivalent here). -/
def matchUpperThenDigit (s : String) : Bool :=
  match s.toList with
  | [] => false
  | c :: _ =>
    c.isUpper &&
      (match s.toList.dropWhile Char.isUpper with
       | [] => false
       | d :: _ => d.isDigit)

/-- `re.match(r'[A-Z0-9\-]+', s)`: first character in the class. -/
def matchIdClass (s : String) : Bool :=
  match s.toList with
  | [] => false
  | c :: _ => c.isUpper || c.isDigit || decide (c = '-')

/-- `re.match(r'[\$£€¥]?[\d,]+\.?\d*', s)`: an optional currency glyph then at
least one digit or comma (the rest of the pattern is optional). -/
def matchMoneyShape (s : String) : Bool :=
  let cs := s.toList
  let rest :=
    match cs with
    | c :: tl => if c = '$' ∨ c = '£' ∨ c = '€' ∨ c = '¥' then tl else cs
    | [] => cs
  match rest with
  | c :: _ => c.isDigit || decide (c = ',')
  | [] => false

/-- Python `str.isdigit` on ASCII inputs: nonempty and all digits. -/
def strIsDigits (s : String) : Bool :=
  decide (s.toList ≠ []) && s.toList.all Char.isDigit

/-- Numeric value of an all-digit string. -/
def strToNat (s : String) : Nat :=
  s.toList.foldl (fun n c => n * 10 + (c.toNat - '0'.toNat)) 0

/-! ## Column Profiler (`discovery.py`) -/

/-- The external parsers used by `SchemaDiscoverer`: single-value success of
`pd.to_numeric` and of `dateutil.parser.parse`.  They are libraries, not
repository code, so they are parameters of the embedding. -/
structure TypeEnv where
  parsesAsNumeric : String → Bool
  parsesAsDate : String → Bool

/-- The boolean literal set of `_infer_column_type` / `_calculate_profile_score`. -/
def boolLiterals : List String :=
  ["true", "false", "1", "0", "yes", "no", "t", "f"]

/-- `SchemaDiscoverer._is_numeric_type`.  The Python body calls
`pd.to_numeric(data, errors='raise', downcast='integer')` for the `int`
flavour and `pd.to_numeric(data, errors='raise')` for the `float` flavour;
`downcast` only affects the dtype of the result and never raises, so both
flavours succeed exactly when every value parses as a number. -/
def is_numeric_type (env : TypeEnv) (data : List String) (_isIntFlavour : Bool) : Bool :=
  data.all env.parsesAsNumeric

/-- `SchemaDiscoverer._is_date_type`: more than 70% of the first
(up to) 10 values parse as dates. -/
def is_date_type (env : TypeEnv) (strData : List String) : Bool :=
  let sample := strData.take (min 10 strData.length)
  let parsed := sample.countP env.parsesAsDate
  decide ((parsed : ℚ) / (sample.length : ℚ) > 7/10)

/-- `SchemaDiscoverer._infer_column_type` on a column of (possibly null)
values; nulls are dropped first, exactly as `col_data.dropna()` does. -/
def infer_column_type (env : TypeEnv) (col : List (Option String)) : ColumnType :=
  let nonNull := col.filterMap id
  if nonNull.length = 0 then ColumnType.string
  else if nonNull.all (fun v => boolLiterals.contains (strLower v)) then ColumnType.bool
  else if is_numeric_type env nonNull true then ColumnType.int
  else if is_numeric_type env nonNull false then ColumnType.decimal
  else if is_date_type env nonNull then ColumnType.date
  else
    let uniqueCount := (dedupFirst nonNull).length
    if uniqueCount ≤ 10 ∧ (uniqueCount : ℚ) / (nonNull.length : ℚ) < 1/2 then
      ColumnType.enum
    else ColumnType.string

/-- `SchemaDiscoverer._detect_date_patterns`: the fixed named patterns, each
detected when it matches more than half of the non-null values. -/
def detect_date_patterns (col : List (Option String)) : List String :=
  let strData := col.filterMap id
  if strData.length = 0 then []
  else
    let n : ℚ := strData.length
    let pats : List (String × (String → Bool)) :=
      [("YYYY-MM-DD", matchYmdFull),
       ("MM/DD/YYYY", matchMdyFull),
       ("DD/MM/YYYY", matchMdyFull),
       ("YYYY/MM/DD", matchYmdSlashFull),
       ("ISO_DATETIME", matchIsoDatetime)]
    (pats.filter (fun pr => decide ((strData.countP pr.2 : ℚ) / n > 1/2))).map (·.1)

/-- The currency glyph class of `_detect_currency_symbols`. -/
def currencyGlyphs : List Char := ['$', '£', '€', '¥', '₹', '₽', '₩']

/-- `SchemaDiscoverer._detect_currency_symbols`: glyphs found in the first 20
non-null values.  Python returns `list(set(...))` whose order is
implementation-defined; the model returns first-occurrence order (only
emptiness of this list is consumed downstream). -/
def detect_currency_symbols (col : List (Option String)) : List String :=
  let strData := (col.filterMap id).take 20
  dedupFirst
    (strData.foldl
      (fun acc v => acc ++ (v.toList.filter (fun c => currencyGlyphs.contains c)).map Char.toString)
      [])

/-- A loaded sample table: named columns of (possibly null) cell values,
as strings (the CSV-shaped data the profiler consumes). -/
structure SampleData where
  cols : List (String × List (Option String))
deriving DecidableEq

/-- The column names of a sample table, in order. -/
def SampleData.columnNames (sd : SampleData) : List String :=
  sd.cols.map (·.1)

/-- Look a column up by name (first match). -/
def SampleData.getCol (sd : SampleData) (name : String) : Option (List (Option String)) :=
  (sd.cols.find? (fun pr => pr.1 = name)).map (·.2)

/-- `SchemaDiscoverer._empty_profile`. -/
def empty_profile (sc : SourceColumn) : ColumnProfile :=
  { source_column := sc
    total_rows := 0
    non_null_count := 0
    distinct_count := 0
    distinct_ratio := 0
    sample_values := []
    inferred_type := ColumnType.string
    date_patterns := []
    currency_symbols := []
    cooccurring_columns := [] }

/-- `SchemaDiscoverer.profile_column` with the sample data already loaded. -/
def profile_column (env : TypeEnv) (sc : SourceColumn) (sd : SampleData) : ColumnProfile :=
  match sd.getCol sc.column with
  | none => empty_profile sc
  | some colData =>
    let totalRows := colData.length
    let nonNull := colData.filterMap id
    { source_column := sc
      total_rows := totalRows
      non_null_count := nonNull.length
      distinct_count := (dedupFirst nonNull).length
      distinct_ratio :=
        if 0 < totalRows then ((dedupFirst nonNull).length : ℚ) / (totalRows : ℚ) else 0
      sample_values := (dedupFirst nonNull).take 10
      inferred_type := infer_column_type env colData
      date_patterns := detect_date_patterns colData
      currency_symbols := detect_currency_symbols colData
      cooccurring_columns := (sd.columnNames.filter (fun c => c ≠ sc.column)).take 5 }

/-- The `try` body of `profile_tenant_columns` for one table once its sample
data has loaded: profiles are appended one by one; if profiling a column
fails, the profiles appended so far are kept and an empty profile is
appended for every column of the table (that is exactly what the Python
`except` clause does).  The per-column profiler is a parameter because the
exceptions it can raise come from the pandas layer, not from repository
code; `fun c sd => Except.ok (profile_column env c sd)` is the
never-failing instantiation. -/
def profileTableGo (profileFn : SourceColumn → SampleData → Except Unit ColumnProfile)
    (sd : SampleData) (allCols : List SourceColumn) :
    List ColumnProfile → List SourceColumn → List ColumnProfile
  | acc, [] => acc
  | acc, c :: rest =>
    match profileFn c sd with
    | Except.ok p => profileTableGo profileFn sd allCols (acc ++ [p]) rest
    | Except.error _ => acc ++ allCols.map empty_profile

/-- One iteration of the table loop of `profile_tenant_columns`: the `try`
block loads the sample data and profiles the columns; the `except` block
appends an empty profile for every column of the table. -/
def profileTableStep (loadFn : String → Except Unit SampleData)
    (profileFn : SourceColumn → SampleData → Except Unit ColumnProfile)
    (profiles : List ColumnProfile) (t : String × List SourceColumn) : List ColumnProfile :=
  match loadFn t.1 with
  | Except.error _ => profiles ++ t.2.map empty_profile
  | Except.ok sd => profileTableGo profileFn sd t.2 profiles t.2

/-- `SchemaDiscoverer.profile_tenant_columns`: the discovered tables are the
input; `loadFn` models `_load_sample_data` (which can fail). -/
def profile_tenant_columns (loadFn : String → Except Unit SampleData)
    (profileFn : SourceColumn → SampleData → Except Unit ColumnProfile)
    (tables : List (String × List SourceColumn)) : List ColumnProfile :=
  tables.foldl (profileTableStep loadFn profileFn) []

/-! ## Mapping Resolver (`resolver.py`)

`MappingResolver.__init__` captures the canonical field catalog, the fuzzy
string metrics of the external fuzzywuzzy library, the four scoring weights
and the two thresholds of the configuration.  The fuzzy metrics return
integers in 0..100 in the real library; theorems that need that bound take
it as a hypothesis. -/

structure Resolver where
  canonical_fields : List String
  /-- `llm_mapper.get_schema_field_by_name(name)['type']`: the declared type
  string of a canonical field, or `none` when the field is unknown. -/
  fieldType : String → Option String
  fuzzRatio : String → String → Nat
  fuzzPartRatio : String → String → Nat
  fuzzTokenSortRatio : String → String → Nat
  weight_llm : ℚ
  weight_name : ℚ
  weight_type : ℚ
  weight_profile : ℚ
  auto_accept_threshold : ℚ
  hitl_threshold : ℚ

/-- The name normalization of `_calculate_name_similarity`:
`re.sub(r'[_\s]+', '', name.lower())`. -/
def normalize_name (s : String) : String :=
  String.mk ((strLower s).toList.filter (fun c => ¬(c = '_' ∨ c.isWhitespace)))

/-- `MappingResolver._calculate_name_similarity`: best of the three fuzzy
ratios, each scaled from 0..100 to 0..1. -/
def calculate_name_similarity (R : Resolver) (sourceColumn canonicalField : String) : ℚ :=
  let sN := normalize_name sourceColumn
  let cN := normalize_name canonicalField
  let r := (R.fuzzRatio sN cN : ℚ) / 100
  let p := (R.fuzzPartRatio sN cN : ℚ) / 100
  let t := (R.fuzzTokenSortRatio (strLower sourceColumn) (strLower canonicalField) : ℚ) / 100
  max r (max p t)

/-- The type compatibility matrix of `_calculate_type_compatibility`
(`compatibility.get(source_type, {}).get(expected_type, 0.0)`);
`ColumnType.datetime` has no row in the Python dict, so it scores 0. -/
def compatScore (st : ColumnType) (expected : String) : ℚ :=
  match st with
  | ColumnType.string =>
    if expected = "string" then 1 else if expected = "enum" then 4/5
    else if expected = "date" then 3/5 else if expected = "decimal" then 3/10
    else if expected = "int" then 3/10 else if expected = "bool" then 1/5 else 0
  | ColumnType.int =>
    if expected = "int" then 1 else if expected = "decimal" then 9/10
    else if expected = "bool" then 7/10 else if expected = "string" then 3/10
    else if expected = "enum" then 1/5 else 0
  | ColumnType.decimal =>
    if expected = "decimal" then 1 else if expected = "int" then 4/5
    else if expected = "string" then 3/10 else if expected = "bool" then 1/10
    else if expected = "enum" then 1/10 else 0
  | ColumnType.bool =>
    if expected = "bool" then 1 else if expected = "int" then 7/10
    else if expected = "string" then 1/2 else if expected = "enum" then 2/5
    else if expected = "decimal" then 1/10 else 0
  | ColumnType.date =>
    if expected = "date" then 1 else if expected = "string" then 3/5
    else if expected = "datetime" then 9/10 else if expected = "int" then 1/10 else 0
  | ColumnType.datetime => 0
  | ColumnType.enum =>
    if expected = "enum" then 1 else if expected = "string" then 4/5
    else if expected = "bool" then 3/5 else if expected = "int" then 3/10
    else if expected = "decimal" then 1/10 else 0

/-- `MappingResolver._calculate_type_compatibility`: 0 for an unknown
canonical field, else the matrix entry. -/
def calculate_type_compatibility (R : Resolver) (st : ColumnType) (canonicalField : String) : ℚ :=
  match R.fieldType canonicalField with
  | none => 0
  | some expected => compatScore st expected

/-- Keyword vocabularies of `_calculate_profile_score`. -/
def statusKeywords : List String := ["active", "draft", "expired", "terminated", "suspended"]

/-- Contract-type keyword vocabulary of `_calculate_profile_score`. -/
def typeKeywords : List String := ["msa", "nda", "sow", "order", "agreement"]

/-- `MappingResolver._calculate_profile_score`: field-specific additive
heuristics, capped at 1. -/
def calculate_profile_score (p : ColumnProfile) (canonicalField : String) : ℚ :=
  let vs := p.sample_values
  let n : ℚ := vs.length
  let score : ℚ :=
    if canonicalField = "contract_id" then
      (if p.distinct_ratio > 9/10 then (1 : ℚ)/2 else 0) +
      (if ((vs.countP matchLeadingDigit : ℚ) > n * (7/10)) ∨
          ((vs.countP matchUpperThenDigit : ℚ) > n * (7/10)) ∨
          ((vs.countP matchIdClass : ℚ) > n * (7/10)) then (3 : ℚ)/10 else 0)
    else if canonicalField = "effective_date" ∨ canonicalField = "expiry_date" then
      (if p.date_patterns ≠ [] then (3 : ℚ)/5 else 0) +
      (if ((vs.countP (fun v => matchYmdPre v || matchMdyPre v) : ℚ) > n * (1/2)) then
        (2 : ℚ)/5 else 0)
    else if canonicalField = "contract_value_ltv" ∨ canonicalField = "contract_value_arr" then
      (if p.inferred_type = ColumnType.decimal ∨ p.inferred_type = ColumnType.int then
        (2 : ℚ)/5 else 0) +
      (if p.currency_symbols ≠ [] then (2 : ℚ)/5 else 0) +
      (if ((vs.countP matchMoneyShape : ℚ) > n * (7/10)) then (1 : ℚ)/5 else 0)
    else if canonicalField = "status" ∨ canonicalField = "contract_type" then
      (if p.distinct_ratio < 3/10 then (2 : ℚ)/5 else 0) +
      (if canonicalField = "status" then
        (if vs.any (fun v => statusKeywords.any (fun k => strContains (strLower v) k)) then
          (3 : ℚ)/10 else 0)
       else
        (if vs.any (fun v => typeKeywords.any (fun k => strContains (strLower v) k)) then
          (3 : ℚ)/10 else 0))
    else if canonicalField = "auto_renew" then
      (if p.inferred_type = ColumnType.bool then (1 : ℚ)/2 else 0) +
      (if vs.all (fun v => boolLiterals.contains (strLower v)) then (2 : ℚ)/5 else 0)
    else if canonicalField = "renewal_term_months" then
      (if p.inferred_type = ColumnType.int then (2 : ℚ)/5 else 0) +
      (let nums := (vs.filter strIsDigits).map strToNat
       if nums ≠ [] ∧ nums.all (fun v => 1 ≤ v ∧ v ≤ 60) then (3 : ℚ)/10 else 0)
    else 0
  min score 1

/-- `MappingResolver._calculate_mapping_score`. -/
def calculate_mapping_score (R : Resolver) (p : ColumnProfile)
    (canonicalField : String) (llmConfidence : ℚ) : MappingScore :=
  let llmScore := llmConfidence
  let nameScore := calculate_name_similarity R p.source_column.column canonicalField
  let typeScore := calculate_type_compatibility R p.inferred_type canonicalField
  let profileScore := calculate_profile_score p canonicalField
  let finalScore :=
    R.weight_llm * llmScore + R.weight_name * nameScore +
      R.weight_type * typeScore + R.weight_profile * profileScore
  { llm_confidence := llmScore
    name_similarity := nameScore
    type_compatibility := typeScore
    value_range_match := profileScore
    final_score := finalScore
    auto_accept := decide (finalScore ≥ R.auto_accept_threshold)
    needs_hitl := decide (finalScore ≥ R.hitl_threshold ∧ finalScore < R.auto_accept_threshold) }

/-- Python's `max(xs, key=...)`: the first element attaining the maximum
(later elements replace the current best only when strictly greater). -/
def firstMaxBy {α : Type} (key : α → ℚ) : List α → Option α
  | [] => none
  | x :: xs => some (xs.foldl (fun acc y => if key y > key acc then y else acc) x)

/-- The scored proposal list built by `resolve_column_mapping`. -/
def scoredProposals (R : Resolver) (p : ColumnProfile) (llm : LLMResponse) :
    List (MappingProposal × MappingScore) :=
  llm.proposed_mappings.map
    (fun pr => (pr, calculate_mapping_score R p pr.canonical_field pr.confidence))

/-- `max(scored_proposals, key=lambda x: x[1].final_score)` (`none` exactly
when the Proposal Source returned no proposals). -/
def bestScored (R : Resolver) (p : ColumnProfile) (llm : LLMResponse) :
    Option (MappingProposal × MappingScore) :=
  firstMaxBy (fun x => x.2.final_score) (scoredProposals R p llm)

/-- The fold of `_heuristic_only_mapping` over all canonical fields: running
`(best_field, best_score)` starting from `(None, 0.0)`, replacing on strict
improvement of the LLM-weight-free renormalized score. -/
def heuristicBest (R : Resolver) (p : ColumnProfile) : Option String × ℚ :=
  R.canonical_fields.foldl
    (fun acc f =>
      let s := calculate_mapping_score R p f 0
      let h :=
        (R.weight_name * s.name_similarity + R.weight_type * s.type_compatibility +
          R.weight_profile * s.value_range_match) /
          (R.weight_name + R.weight_type + R.weight_profile)
      if h > acc.2 then (some f, h) else acc)
    (none, 0)

/-- `MappingResolver._heuristic_only_mapping`.  Note that the Python body
would raise `ZeroDivisionError` when the three non-LLM weights sum to 0;
theorems about this path therefore assume that sum is positive. -/
def heuristic_only_mapping (R : Resolver) (llm : LLMResponse) (p : ColumnProfile)
    (now : Nat) : ColumnMapping :=
  let best := heuristicBest R p
  let m0 : ColumnMapping :=
    { source_column := p.source_column
      canonical_field := none
      mapping_score := none
      llm_response := some llm
      transform_rule := none
      status := "pending"
      human_feedback := none
      created_at := now }
  if best.2 > 3/5 then
    { m0 with canonical_field := best.1, status := "hitl_required" }
  else
    { m0 with status := "rejected" }

/-- `MappingResolver.resolve_column_mapping`; the Proposal Source response
(`self.llm_mapper.map_column(...)`) is passed in, and `now` models the
`datetime.utcnow()` default of `created_at`. -/
def resolve_column_mapping (R : Resolver) (llm : LLMResponse) (p : ColumnProfile)
    (now : Nat) : ColumnMapping :=
  match bestScored R p llm with
  | none => heuristic_only_mapping R llm p now
  | some best =>
    let m0 : ColumnMapping :=
      { source_column := p.source_column
        canonical_field := some best.1.canonical_field
        mapping_score := some best.2
        llm_response := some llm
        transform_rule := best.1.transform_hint
        status := "pending"
        human_feedback := none
        created_at := now }
    if best.2.auto_accept then { m0 with status := "accepted" }
    else if best.2.needs_hitl then { m0 with status := "hitl_required" }
    else { m0 with status := "rejected", canonical_field := none }

/-- The sort key of `_resolve_conflicts`:
`m.mapping_score.final_score if m.mapping_score else 0.0`. -/
def mappingKey (m : ColumnMapping) : ℚ :=
  match m.mapping_score with
  | some s => s.final_score
  | none => 0

/-- Python truthiness of `mapping.canonical_field` (`None` and `""` are falsy). -/
def truthyField : Option String → Bool
  | none => false
  | some s => decide (s ≠ "")

/-- The `field_mappings` group of `_resolve_conflicts` for one canonical
field: all mappings claiming it that are not rejected. -/
def conflictGroup (ms : List ColumnMapping) (f : String) : List ColumnMapping :=
  ms.filter (fun m => decide (m.canonical_field = some f) && decide (m.status ≠ "rejected"))

/-- The conflict demotion of `_resolve_conflicts`. -/
def demote (m best : ColumnMapping) : ColumnMapping :=
  { m with
    status := "hitl_required"
    human_feedback := some ("Conflict with " ++ best.source_column.column) }

/-- One iteration of the `_resolve_conflicts` loop for mapping `m` against
the whole batch `ms` (the groups are built from the pre-loop state, and the
in-place mutations of the Python loop never feed back into the comparisons
of later iterations, so this per-element function is exact). -/
def resolveConflictsStep (ms : List ColumnMapping) (m : ColumnMapping) : ColumnMapping :=
  if truthyField m.canonical_field = false ∨ m.status = "rejected" then m
  else
    match m.canonical_field with
    | none => m
    | some f =>
      if (conflictGroup ms f).length ≤ 1 then m
      else
        match firstMaxBy mappingKey (conflictGroup ms f) with
        | none => m
        | some best => if m = best then m else demote m best

/-- `MappingResolver._resolve_conflicts`. -/
def resolve_conflicts (ms : List ColumnMapping) : List ColumnMapping :=
  ms.map (resolveConflictsStep ms)

/-- The per-profile loop of `resolve_batch_mappings`: the Proposal Source is
modelled as `env` and the wall clock as `ts` (the `i`-th resolution reads
the clock as `ts i`). -/
def resolveAll (R : Resolver) (env : ColumnProfile → LLMResponse) (ts : Nat → Nat) :
    List ColumnProfile → Nat → List ColumnMapping
  | [], _ => []
  | p :: rest, i =>
    resolve_column_mapping R (env p) p (ts i) :: resolveAll R env ts rest (i + 1)

/-- `MappingResolver.resolve_batch_mappings`. -/
def resolve_batch_mappings (R : Resolver) (env : ColumnProfile → LLMResponse)
    (ts : Nat → Nat) (profiles : List ColumnProfile) : List ColumnMapping :=
  resolve_conflicts (resolveAll R env ts profiles 0)

/-! ## Concrete instances used by examples and witnesses -/

/-- A nonempty digit run, returning what follows the maximal run. -/
def digitsRun1 : List Char → Option (List Char)
  | [] => none
  | c :: cs => if c.isDigit then some (cs.dropWhile Char.isDigit) else none

/-- Concrete stand-in for single-value `pd.to_numeric` success used by the
examples: digits optionally followed by a dot and more digits (it agrees
with pandas on every literal appearing in this file). -/
def numericLit (s : String) : Bool :=
  match digitsRun1 s.toList with
  | none => false
  | some [] => true
  | some ('.' :: cs) => decide (digitsRun1 cs = some [])
  | some _ => false

/-- A concrete `TypeEnv` for examples (no value used in this file parses as
a date under `dateutil` either, so the date component is constantly false). -/
def env0 : TypeEnv :=
  { parsesAsNumeric := numericLit, parsesAsDate := fun _ => false }

/-- Concrete stand-in for the fuzzywuzzy ratios used by examples: it agrees
with the real library (which returns 100 on identical strings and values in
0..100 everywhere) on every pair of strings evaluated in this file. -/
def eqFuzz (s t : String) : Nat :=
  if s = t then 100 else 0

/-- A one-field canonical catalog: `status`, an enum field. -/
def fieldTypeStatus : String → Option String := fun f =>
  if f = "status" then some "enum" else none

/-- A concrete resolver carrying the configuration defaults of
`config.py` (weights 0.5/0.2/0.2/0.1, thresholds 0.75 and 0.5). -/
def R0 : Resolver :=
  { canonical_fields := ["status"]
    fieldType := fieldTypeStatus
    fuzzRatio := eqFuzz
    fuzzPartRatio := eqFuzz
    fuzzTokenSortRatio := eqFuzz
    weight_llm := 1/2
    weight_name := 1/5
    weight_type := 1/5
    weight_profile := 1/10
    auto_accept_threshold := 3/4
    hitl_threshold := 1/2 }

/-- A source column named `status`. -/
def scStatus : SourceColumn :=
  { tenant := "tenant_A", table := "contracts", column := "status" }

/-- A source column named `state`. -/
def scState : SourceColumn :=
  { tenant := "tenant_A", table := "contracts", column := "state" }

/-- A one-column sample table whose only value is null. -/
def sdNull : SampleData :=
  ⟨[("status", [none])]⟩

/-- A Proposal Source response proposing `status` with confidence 0.9. -/
def respStatus : LLMResponse :=
  { proposed_mappings :=
      [{ canonical_field := "status", justification := "looks like a status", confidence := 9/10 }] }

/-- An empty Proposal Source response. -/
def respNone : LLMResponse :=
  { proposed_mappings := [] }

/-- A concrete profile of a low-cardinality `status`-like column. -/
def profActive : ColumnProfile :=
  { source_column := scStatus
    total_rows := 5
    non_null_count := 5
    distinct_count := 1
    distinct_ratio := 1/5
    sample_values := ["active"]
    inferred_type := ColumnType.string }

/-- A concrete profile of a `state` column, identical signals but a
non-matching name. -/
def profState : ColumnProfile :=
  { source_column := scState
    total_rows := 5
    non_null_count := 5
    distinct_count := 1
    distinct_ratio := 1/5
    sample_values := ["active"]
    inferred_type := ColumnType.string }

/-- The profile that `profile_column` computes for the one-row all-null
`status` table `sdNull` (`profile_column_sdNull` below proves this). -/
def profNull : ColumnProfile :=
  { source_column := scStatus
    total_rows := 1
    non_null_count := 0
    distinct_count := 0
    distinct_ratio := 0
    sample_values := []
    inferred_type := ColumnType.string }

/-- A source column named `a`. -/
def scA : SourceColumn := { tenant := "tenant_A", table := "tbl", column := "a" }

/-- A source column named `b`. -/
def scB : SourceColumn := { tenant := "tenant_A", table := "tbl", column := "b" }

/-- A two-column sample table for the profiling example. -/
def sdAB : SampleData := ⟨[("a", [some "x"]), ("b", [some "y"])]⟩

/-- A per-column profiler that fails (models a pandas exception) exactly on
column `b` and behaves as the real `profile_column` elsewhere. -/
def failingProfileFn : SourceColumn → SampleData → Except Unit ColumnProfile :=
  fun c sd => if c.column = "b" then Except.error () else Except.ok (profile_column env0 c sd)

/-! ## Structural lemmas -/

theorem foldl_max_mem {α : Type} (key : α → ℚ) (l : List α) (a : α) :
    l.foldl (fun acc y => if key y > key acc then y else acc) a ∈ a :: l := by
  induction l generalizing a with
  | nil => exact List.mem_singleton.mpr rfl
  | cons y ys ih =>
    rw [List.foldl_cons]
    rcases List.mem_cons.mp (ih (if key y > key a then y else a)) with h1 | h1
    · rw [h1]
      by_cases hk : key y > key a
      · rw [if_pos hk]
        exact List.mem_cons_of_mem a (List.mem_cons_self y ys)
      · rw [if_neg hk]
        exact List.mem_cons_self a _
    · exact List.mem_cons_of_mem a (List.mem_cons_of_mem y h1)

theorem firstMaxBy_mem {α : Type} {key : α → ℚ} {l : List α} {x : α}
    (h : firstMaxBy key l = some x) : x ∈ l := by
  cases l with
  | nil => simp [firstMaxBy] at h
  | cons a as =>
    simp only [firstMaxBy, Option.some.injEq] at h
    subst h
    exact foldl_max_mem key as a

theorem firstMaxBy_isSome {α : Type} (key : α → ℚ) (a : α) (l : List α) (h : a ∈ l) :
    ∃ x, firstMaxBy key l = some x := by
  cases l with
  | nil => cases h
  | cons b bs => exact ⟨_, rfl⟩

theorem filterMap_id_of_all_none {α : Type} {l : List (Option α)}
    (h : ∀ v ∈ l, v = none) : l.filterMap id = [] := by
  induction l with
  | nil => rfl
  | cons a as ih =>
    have ha := h a (by simp)
    subst ha
    simpa using ih (fun v hv => h v (by simp [hv]))

theorem two_mem_length {α : Type} {l : List α} {a b : α}
    (ha : a ∈ l) (hb : b ∈ l) (hne : a ≠ b) : 2 ≤ l.length := by
  induction l with
  | nil => cases ha
  | cons x xs ih =>
    rcases List.mem_cons.mp ha with rfl | ha'
    · rcases List.mem_cons.mp hb with rfl | hb'
      · exact absurd rfl hne
      · have : 1 ≤ xs.length := List.length_pos_of_mem hb'
        simpa using Nat.succ_le_succ this
    · have : 1 ≤ xs.length := List.length_pos_of_mem ha'
      simpa using Nat.succ_le_succ this

/-! ## Lemmas about single-column resolution -/

theorem heuristic_created_at (R : Resolver) (llm : LLMResponse) (p : ColumnProfile) (now : Nat) :
    (heuristic_only_mapping R llm p now).created_at = now := by
  unfold heuristic_only_mapping
  dsimp only
  split <;> rfl

theorem heuristic_source (R : Resolver) (llm : LLMResponse) (p : ColumnProfile) (now : Nat) :
    (heuristic_only_mapping R llm p now).source_column = p.source_column := by
  unfold heuristic_only_mapping
  dsimp only
  split <;> rfl

theorem heuristic_score_none (R : Resolver) (llm : LLMResponse) (p : ColumnProfile) (now : Nat) :
    (heuristic_only_mapping R llm p now).mapping_score = none := by
  unfold heuristic_only_mapping
  dsimp only
  split <;> rfl

theorem heuristic_hitl (R : Resolver) (llm : LLMResponse) (p : ColumnProfile) (now : Nat)
    (h : (heuristicBest R p).2 > 3/5) :
    (heuristic_only_mapping R llm p now).status = "hitl_required" ∧
    (heuristic_only_mapping R llm p now).canonical_field = (heuristicBest R p).1 := by
  unfold heuristic_only_mapping
  rw [if_pos h]
  exact ⟨rfl, rfl⟩

theorem heuristic_rejected (R : Resolver) (llm : LLMResponse) (p : ColumnProfile) (now : Nat)
    (h : ¬ (heuristicBest R p).2 > 3/5) :
    (heuristic_only_mapping R llm p now).status = "rejected" ∧
    (heuristic_only_mapping R llm p now).canonical_field = none := by
  unfold heuristic_only_mapping
  rw [if_neg h]
  exact ⟨rfl, rfl⟩

theorem heuristic_status (R : Resolver) (llm : LLMResponse) (p : ColumnProfile) (now : Nat) :
    (heuristic_only_mapping R llm p now).status = "hitl_required" ∨
    (heuristic_only_mapping R llm p now).status = "rejected" := by
  by_cases h : (heuristicBest R p).2 > 3/5
  · exact Or.inl (heuristic_hitl R llm p now h).1
  · exact Or.inr (heuristic_rejected R llm p now h).1

theorem bestScored_none_iff (R : Resolver) (p : ColumnProfile) (llm : LLMResponse) :
    bestScored R p llm = none ↔ llm.proposed_mappings = [] := by
  unfold bestScored scoredProposals
  cases llm.proposed_mappings with
  | nil => simp [firstMaxBy]
  | cons a as => simp [firstMaxBy]

theorem resolve_heuristic (R : Resolver) (llm : LLMResponse) (p : ColumnProfile) (now : Nat)
    (h : llm.proposed_mappings = []) :
    resolve_column_mapping R llm p now = heuristic_only_mapping R llm p now := by
  have hb : bestScored R p llm = none := (bestScored_none_iff R p llm).mpr h
  unfold resolve_column_mapping
  rw [hb]

theorem resolve_some_spec (R : Resolver) (llm : LLMResponse) (p : ColumnProfile) (now : Nat)
    (b : MappingProposal × MappingScore) (hb : bestScored R p llm = some b) :
    resolve_column_mapping R llm p now =
      (if b.2.auto_accept then
        { source_column := p.source_column, canonical_field := some b.1.canonical_field,
          mapping_score := some b.2, llm_response := some llm,
          transform_rule := b.1.transform_hint, status := "accepted",
          human_feedback := none, created_at := now }
       else if b.2.needs_hitl then
        { source_column := p.source_column, canonical_field := some b.1.canonical_field,
          mapping_score := some b.2, llm_response := some llm,
          transform_rule := b.1.transform_hint, status := "hitl_required",
          human_feedback := none, created_at := now }
       else
        { source_column := p.source_column, canonical_field := none,
          mapping_score := some b.2, llm_response := some llm,
          transform_rule := b.1.transform_hint, status := "rejected",
          human_feedback := none, created_at := now }) := by
  unfold resolve_column_mapping
  rw [hb]

theorem resolve_created_at (R : Resolver) (llm : LLMResponse) (p : ColumnProfile) (now : Nat) :
    (resolve_column_mapping R llm p now).created_at = now := by
  rcases hb : bestScored R p llm with _ | b
  · unfold resolve_column_mapping
    rw [hb]
    exact heuristic_created_at R llm p now
  · rw [resolve_some_spec R llm p now b hb]
    split
    · rfl
    · split <;> rfl

theorem resolve_source (R : Resolver) (llm : LLMResponse) (p : ColumnProfile) (now : Nat) :
    (resolve_column_mapping R llm p now).source_column = p.source_column := by
  rcases hb : bestScored R p llm with _ | b
  · unfold resolve_column_mapping
    rw [hb]
    exact heuristic_source R llm p now
  · rw [resolve_some_spec R llm p now b hb]
    split
    · rfl
    · split <;> rfl

theorem resolve_status_cases (R : Resolver) (llm : LLMResponse) (p : ColumnProfile) (now : Nat) :
    (resolve_column_mapping R llm p now).status = "accepted" ∨
    (resolve_column_mapping R llm p now).status = "hitl_required" ∨
    (resolve_column_mapping R llm p now).status = "rejected" := by
  rcases hb : bestScored R p llm with _ | b
  · rw [resolve_heuristic R llm p now ((bestScored_none_iff R p llm).mp hb)]
    rcases heuristic_status R llm p now with h | h
    · exact Or.inr (Or.inl h)
    · exact Or.inr (Or.inr h)
  · rw [resolve_some_spec R llm p now b hb]
    split
    · exact Or.inl rfl
    · split
      · exact Or.inr (Or.inl rfl)
      · exact Or.inr (Or.inr rfl)

theorem resolve_accepted (R : Resolver) (llm : LLMResponse) (p : ColumnProfile) (now : Nat)
    (h : (resolve_column_mapping R llm p now).status = "accepted") :
    ∃ b : MappingProposal × MappingScore,
      bestScored R p llm = some b ∧ b.1 ∈ llm.proposed_mappings ∧
      (resolve_column_mapping R llm p now).canonical_field = some b.1.canonical_field ∧
      (resolve_column_mapping R llm p now).mapping_score = some b.2 := by
  rcases hb : bestScored R p llm with _ | b
  · rw [resolve_heuristic R llm p now ((bestScored_none_iff R p llm).mp hb)] at h
    rcases heuristic_status R llm p now with h' | h' <;> rw [h'] at h <;> simp at h
  · refine ⟨b, rfl, ?_, ?_, ?_⟩
    · have hmem := firstMaxBy_mem hb
      unfold scoredProposals at hmem
      rcases List.mem_map.mp hmem with ⟨pr, hpr, heq⟩
      have : b.1 = pr := by rw [← heq]
      rw [this]
      exact hpr
    · rw [resolve_some_spec R llm p now b hb] at h ⊢
      split at h
      · split
        · rfl
        · exact absurd h (by simp_all)
      · split at h <;> simp at h
    · rw [resolve_some_spec R llm p now b hb]
      split
      · rfl
      · split <;> rfl

/-! ## Lemmas about conflict resolution -/

theorem firstMaxBy_eq_none {α : Type} {key : α → ℚ} {l : List α}
    (h : firstMaxBy key l = none) : l = [] := by
  cases l with
  | nil => rfl
  | cons a as => simp [firstMaxBy] at h

theorem demote_status (m best : ColumnMapping) : (demote m best).status = "hitl_required" :=
  rfl

theorem step_eq_or_demote (ms : List ColumnMapping) (m : ColumnMapping) :
    resolveConflictsStep ms m = m ∨
    ∃ best, resolveConflictsStep ms m = demote m best := by
  unfold resolveConflictsStep
  repeat' split
  all_goals first
    | exact Or.inl rfl
    | exact Or.inr ⟨_, rfl⟩

theorem step_field (ms : List ColumnMapping) (m : ColumnMapping) :
    (resolveConflictsStep ms m).canonical_field = m.canonical_field := by
  rcases step_eq_or_demote ms m with h | ⟨best, h⟩ <;> rw [h] <;> rfl

theorem step_source (ms : List ColumnMapping) (m : ColumnMapping) :
    (resolveConflictsStep ms m).source_column = m.source_column := by
  rcases step_eq_or_demote ms m with h | ⟨best, h⟩ <;> rw [h] <;> rfl

theorem step_created_at (ms : List ColumnMapping) (m : ColumnMapping) :
    (resolveConflictsStep ms m).created_at = m.created_at := by
  rcases step_eq_or_demote ms m with h | ⟨best, h⟩ <;> rw [h] <;> rfl

theorem step_status_or (ms : List ColumnMapping) (m : ColumnMapping) :
    (resolveConflictsStep ms m).status = m.status ∨
    (resolveConflictsStep ms m).status = "hitl_required" := by
  rcases step_eq_or_demote ms m with h | ⟨best, h⟩ <;> rw [h]
  · exact Or.inl rfl
  · exact Or.inr rfl

theorem step_of_rejected (ms : List ColumnMapping) (m : ColumnMapping)
    (h : m.status = "rejected") : resolveConflictsStep ms m = m := by
  unfold resolveConflictsStep
  rw [if_pos (Or.inr h)]

theorem step_rejected_iff (ms : List ColumnMapping) (m : ColumnMapping) :
    (resolveConflictsStep ms m).status = "rejected" ↔ m.status = "rejected" := by
  constructor
  · intro h
    rcases step_status_or ms m with h' | h'
    · rw [← h', h]
    · rw [h'] at h
      exact absurd h (by decide)
  · intro h
    rw [step_of_rejected ms m h, h]

theorem step_accepted_kept (ms : List ColumnMapping) (m : ColumnMapping)
    (h : (resolveConflictsStep ms m).status = "accepted") :
    resolveConflictsStep ms m = m ∧ m.status = "accepted" := by
  rcases step_eq_or_demote ms m with h' | ⟨best, h'⟩
  · rw [h'] at h
    exact ⟨h', h⟩
  · rw [h', demote_status] at h
    exact absurd h (by decide)

theorem kept_accepted_best (ms : List ColumnMapping) (m : ColumnMapping) (f : String)
    (hacc : m.status = "accepted") (hf : m.canonical_field = some f) (hne : f ≠ "")
    (hkept : resolveConflictsStep ms m = m)
    (hlen : 2 ≤ (conflictGroup ms f).length) :
    firstMaxBy mappingKey (conflictGroup ms f) = some m := by
  have hcond : ¬(truthyField m.canonical_field = false ∨ m.status = "rejected") := by
    rw [hf, hacc]
    simp [truthyField, hne]
  unfold resolveConflictsStep at hkept
  rw [if_neg hcond] at hkept
  simp only [hf] at hkept
  rw [if_neg (by omega)] at hkept
  rcases hb : firstMaxBy mappingKey (conflictGroup ms f) with _ | best
  · have := firstMaxBy_eq_none hb
    rw [this] at hlen
    simp at hlen
  · rw [hb] at hkept
    dsimp only at hkept
    by_cases hmb : m = best
    · rw [hmb]
    · rw [if_neg hmb] at hkept
      have := congrArg ColumnMapping.status hkept
      rw [demote_status, hacc] at this
      exact absurd this (by decide)

theorem step_demote (ms : List ColumnMapping) (m best : ColumnMapping) (f : String)
    (hf : m.canonical_field = some f) (hne : f ≠ "") (hnr : m.status ≠ "rejected")
    (hlen : 2 ≤ (conflictGroup ms f).length)
    (hbest : firstMaxBy mappingKey (conflictGroup ms f) = some best)
    (hmb : m ≠ best) :
    resolveConflictsStep ms m = demote m best := by
  have hcond : ¬(truthyField m.canonical_field = false ∨ m.status = "rejected") := by
    rw [hf]
    simp [truthyField, hne, hnr]
  unfold resolveConflictsStep
  rw [if_neg hcond]
  simp only [hf]
  rw [if_neg (by omega), hbest]
  dsimp only
  rw [if_neg hmb]

theorem mem_conflictGroup (ms : List ColumnMapping) (m : ColumnMapping) (f : String)
    (hm : m ∈ ms) (hf : m.canonical_field = some f) (hnr : m.status ≠ "rejected") :
    m ∈ conflictGroup ms f := by
  unfold conflictGroup
  rw [List.mem_filter]
  exact ⟨hm, by simp [hf, hnr]⟩

theorem resolve_conflicts_length (ms : List ColumnMapping) :
    (resolve_conflicts ms).length = ms.length := by
  simp [resolve_conflicts]

theorem resolve_conflicts_get (ms : List ColumnMapping) (k : Nat)
    (h : k < (resolve_conflicts ms).length) (h' : k < ms.length) :
    (resolve_conflicts ms).get ⟨k, h⟩ = resolveConflictsStep ms (ms.get ⟨k, h'⟩) := by
  simp [resolve_conflicts]

/-! ## Lemmas about batch resolution -/

theorem resolveAll_length (R : Resolver) (env : ColumnProfile → LLMResponse) (ts : Nat → Nat)
    (l : List ColumnProfile) (i : Nat) :
    (resolveAll R env ts l i).length = l.length := by
  induction l generalizing i with
  | nil => rfl
  | cons p rest ih => simp [resolveAll, ih]

theorem resolveAll_get (R : Resolver) (env : ColumnProfile → LLMResponse) (ts : Nat → Nat)
    (l : List ColumnProfile) (i k : Nat)
    (h : k < (resolveAll R env ts l i).length) (h' : k < l.length) :
    (resolveAll R env ts l i).get ⟨k, h⟩ =
      resolve_column_mapping R (env (l.get ⟨k, h'⟩)) (l.get ⟨k, h'⟩) (ts (i + k)) := by
  induction l generalizing i k with
  | nil => exact absurd h' (Nat.not_lt_zero k)
  | cons p rest ih =>
    cases k with
    | zero => simp [resolveAll]
    | succ k' =>
      have hr : k' < rest.length := Nat.lt_of_succ_lt_succ h'
      have h2 : k' < (resolveAll R env ts rest (i + 1)).length := by
        rw [resolveAll_length]
        exact hr
      have e1 : (resolveAll R env ts (p :: rest) i).get ⟨k' + 1, h⟩ =
          (resolveAll R env ts rest (i + 1)).get ⟨k', h2⟩ := by
        simp [resolveAll]
      rw [e1, ih (i + 1) k' h2 hr]
      have e2 : (i + 1) + k' = i + (k' + 1) := by omega
      rw [e2]
      congr 1 <;> simp [List.get_cons_succ]

theorem resolveAll_mem (R : Resolver) (env : ColumnProfile → LLMResponse) (ts : Nat → Nat)
    (l : List ColumnProfile) (i : Nat) (m : ColumnMapping)
    (hm : m ∈ resolveAll R env ts l i) :
    ∃ p n, m = resolve_column_mapping R (env p) p n := by
  induction l generalizing i with
  | nil => cases hm
  | cons p rest ih =>
    rcases List.mem_cons.mp hm with h | h
    · exact ⟨p, ts i, h⟩
    · exact ih (i + 1) h

/-! ## Claim theorems -/

/-- C3: for every column resolved from a non-empty proposal list (with the two
thresholds ordered `hitl_threshold ≤ auto_accept_threshold`), the status that
`resolve_column_mapping` assigns is determined by the winning candidate's
`final_score` against the thresholds: at least `auto_accept_threshold` gives
`accepted`; in `[hitl_threshold, auto_accept_threshold)` gives
`hitl_required`; below `hitl_threshold` gives `rejected` with
`canonical_field` cleared to `none`. -/
theorem C3_threshold_policy (R : Resolver) (llm : LLMResponse) (p : ColumnProfile) (now : Nat)
    (b : MappingProposal × MappingScore)
    (hord : R.hitl_threshold ≤ R.auto_accept_threshold)
    (hb : bestScored R p llm = some b) :
    (R.auto_accept_threshold ≤ b.2.final_score →
       (resolve_column_mapping R llm p now).status = "accepted") ∧
    (R.hitl_threshold ≤ b.2.final_score ∧ b.2.final_score < R.auto_accept_threshold →
       (resolve_column_mapping R llm p now).status = "hitl_required") ∧
    (b.2.final_score < R.hitl_threshold →
       (resolve_column_mapping R llm p now).status = "rejected" ∧
       (resolve_column_mapping R llm p now).canonical_field = none) := by
  have hmem := firstMaxBy_mem hb
  unfold scoredProposals at hmem
  rcases List.mem_map.mp hmem with ⟨pr, hpr, heq⟩
  subst heq
  have ha : (calculate_mapping_score R p pr.canonical_field pr.confidence).auto_accept =
      decide (R.auto_accept_threshold ≤
        (calculate_mapping_score R p pr.canonical_field pr.confidence).final_score) := rfl
  have hn : (calculate_mapping_score R p pr.canonical_field pr.confidence).needs_hitl =
      decide (R.hitl_threshold ≤
          (calculate_mapping_score R p pr.canonical_field pr.confidence).final_score ∧
        (calculate_mapping_score R p pr.canonical_field pr.confidence).final_score <
          R.auto_accept_threshold) := rfl
  rw [resolve_some_spec R llm p now _ hb]
  refine ⟨?_, ?_, ?_⟩
  · intro h
    have : (calculate_mapping_score R p pr.canonical_field pr.confidence).auto_accept = true := by
      rw [ha]
      exact decide_eq_true h
    simp [this]
  · rintro ⟨h1, h2⟩
    have haf : (calculate_mapping_score R p pr.canonical_field pr.confidence).auto_accept = false := by
      rw [ha]
      simpa using not_le.mpr h2
    have hnt : (calculate_mapping_score R p pr.canonical_field pr.confidence).needs_hitl = true := by
      rw [hn]
      exact decide_eq_true ⟨h1, h2⟩
    simp [haf, hnt]
  · intro h
    have haf : (calculate_mapping_score R p pr.canonical_field pr.confidence).auto_accept = false := by
      rw [ha]
      simpa using not_le.mpr (lt_of_lt_of_le h hord)
    have hnt : (calculate_mapping_score R p pr.canonical_field pr.confidence).needs_hitl = false := by
      rw [hn]
      simp only [decide_eq_false_iff_not]
      rintro ⟨h1, _⟩
      exact absurd h (not_lt.mpr h1)
    simp [haf, hnt]

/-- C3 witness: at the default configuration and a concrete all-null `status`
column with a 0.9-confidence `status` proposal, the hypotheses hold and the
policy applies (the winning final score is 0.85, which lands in the accepted
band). -/
theorem C3_threshold_policy_witness :
    R0.hitl_threshold ≤ R0.auto_accept_threshold ∧
    ((R0.auto_accept_threshold ≤
        (calculate_mapping_score R0 (profile_column env0 scStatus sdNull) "status" (9/10)).final_score →
       (resolve_column_mapping R0 respStatus (profile_column env0 scStatus sdNull) 0).status =
         "accepted") ∧
     (R0.hitl_threshold ≤
          (calculate_mapping_score R0 (profile_column env0 scStatus sdNull) "status" (9/10)).final_score ∧
        (calculate_mapping_score R0 (profile_column env0 scStatus sdNull) "status" (9/10)).final_score <
          R0.auto_accept_threshold →
       (resolve_column_mapping R0 respStatus (profile_column env0 scStatus sdNull) 0).status =
         "hitl_required") ∧
     ((calculate_mapping_score R0 (profile_column env0 scStatus sdNull) "status" (9/10)).final_score <
        R0.hitl_threshold →
       (resolve_column_mapping R0 respStatus (profile_column env0 scStatus sdNull) 0).status =
           "rejected" ∧
         (resolve_column_mapping R0 respStatus (profile_column env0 scStatus sdNull) 0).canonical_field =
           none)) :=
  ⟨by norm_num [R0],
   C3_threshold_policy R0 respStatus (profile_column env0 scStatus sdNull) 0
     ({ canonical_field := "status", justification := "looks like a status", confidence := 9/10 },
       calculate_mapping_score R0 (profile_column env0 scStatus sdNull) "status" (9/10))
     (by norm_num [R0]) rfl⟩

/-- C5: when the Proposal Source returns zero proposed mappings (and the
configuration is runnable, i.e. the three non-LLM weights have positive sum,
since `_heuristic_only_mapping` divides by it), the resulting mapping is
never `accepted`: if the best heuristic-only score (LLM weight excluded,
remaining weights renormalized — that is exactly `heuristicBest`) exceeds
the 0.6 floor the status is forced to `hitl_required`, and otherwise the
status is `rejected` with `canonical_field` still `none`. -/
theorem C5_heuristic_gate (R : Resolver) (llm : LLMResponse) (p : ColumnProfile) (now : Nat)
    (_hw : 0 < R.weight_name + R.weight_type + R.weight_profile)
    (h : llm.proposed_mappings = []) :
    (resolve_column_mapping R llm p now).status ≠ "accepted" ∧
    ((heuristicBest R p).2 > 3/5 →
      (resolve_column_mapping R llm p now).status = "hitl_required" ∧
      (resolve_column_mapping R llm p now).canonical_field = (heuristicBest R p).1) ∧
    (¬ (heuristicBest R p).2 > 3/5 →
      (resolve_column_mapping R llm p now).status = "rejected" ∧
      (resolve_column_mapping R llm p now).canonical_field = none) := by
  rw [resolve_heuristic R llm p now h]
  refine ⟨?_, ?_, ?_⟩
  · rcases heuristic_status R llm p now with h' | h' <;> rw [h'] <;> decide
  · exact heuristic_hitl R llm p now
  · exact heuristic_rejected R llm p now

/-- C5 witness: the default configuration on the concrete low-cardinality
`status`-keyword profile with an empty Proposal Source response; the
heuristic floor is exceeded there, so the result is a `hitl_required`
mapping and in particular not `accepted`. -/
theorem C5_heuristic_gate_witness :
    (0 < R0.weight_name + R0.weight_type + R0.weight_profile) ∧
    respNone.proposed_mappings = [] ∧
    ((resolve_column_mapping R0 respNone profActive 0).status ≠ "accepted" ∧
     ((heuristicBest R0 profActive).2 > 3/5 →
       (resolve_column_mapping R0 respNone profActive 0).status = "hitl_required" ∧
       (resolve_column_mapping R0 respNone profActive 0).canonical_field =
         (heuristicBest R0 profActive).1) ∧
     (¬ (heuristicBest R0 profActive).2 > 3/5 →
       (resolve_column_mapping R0 respNone profActive 0).status = "rejected" ∧
       (resolve_column_mapping R0 respNone profActive 0).canonical_field = none)) :=
  ⟨by norm_num [R0], rfl, C5_heuristic_gate R0 respNone profActive 0 (by norm_num [R0]) rfl⟩

/-- C6: for a fixed profile and fixed candidate canonical field, raising the
Proposal Source confidence (within [0,1], with every other signal unchanged
and a nonnegative LLM weight) never lowers `final_score`, and a
single-proposal mapping that was `accepted` at the lower confidence is still
`accepted` at the higher one. -/
theorem C6_llm_monotone (R : Resolver) (p : ColumnProfile) (f : String)
    (pr : MappingProposal) (alts : List AlternativeMapping) (rsn : Option String) (now : Nat)
    (c1 c2 : ℚ) (hw : 0 ≤ R.weight_llm)
    (_hc10 : 0 ≤ c1) (_hc11 : c1 ≤ 1) (_hc20 : 0 ≤ c2) (_hc21 : c2 ≤ 1) (h12 : c1 ≤ c2) :
    (calculate_mapping_score R p f c1).final_score ≤
      (calculate_mapping_score R p f c2).final_score ∧
    ((resolve_column_mapping R
        { proposed_mappings := [{ pr with canonical_field := f, confidence := c1 }],
          alternatives := alts, reasoning := rsn } p now).status = "accepted" →
     (resolve_column_mapping R
        { proposed_mappings := [{ pr with canonical_field := f, confidence := c2 }],
          alternatives := alts, reasoning := rsn } p now).status = "accepted") := by
  have hmono : (calculate_mapping_score R p f c1).final_score ≤
      (calculate_mapping_score R p f c2).final_score := by
    have e1 : (calculate_mapping_score R p f c1).final_score =
        R.weight_llm * c1 +
          R.weight_name * calculate_name_similarity R p.source_column.column f +
          R.weight_type * calculate_type_compatibility R p.inferred_type f +
          R.weight_profile * calculate_profile_score p f := rfl
    have e2 : (calculate_mapping_score R p f c2).final_score =
        R.weight_llm * c2 +
          R.weight_name * calculate_name_similarity R p.source_column.column f +
          R.weight_type * calculate_type_compatibility R p.inferred_type f +
          R.weight_profile * calculate_profile_score p f := rfl
    rw [e1, e2]
    have := mul_le_mul_of_nonneg_left h12 hw
    linarith
  refine ⟨hmono, ?_⟩
  intro hacc
  have hb1 : bestScored R p
      { proposed_mappings := [{ pr with canonical_field := f, confidence := c1 }],
        alternatives := alts, reasoning := rsn } =
      some ({ pr with canonical_field := f, confidence := c1 },
        calculate_mapping_score R p f c1) := rfl
  have hb2 : bestScored R p
      { proposed_mappings := [{ pr with canonical_field := f, confidence := c2 }],
        alternatives := alts, reasoning := rsn } =
      some ({ pr with canonical_field := f, confidence := c2 },
        calculate_mapping_score R p f c2) := rfl
  rw [resolve_some_spec R _ p now _ hb1] at hacc
  rw [resolve_some_spec R _ p now _ hb2]
  have ha1 : (calculate_mapping_score R p f c1).auto_accept = true := by
    by_contra hfalse
    have h1 : (calculate_mapping_score R p f c1).auto_accept = false :=
      Bool.eq_false_iff.mpr hfalse
    rw [h1] at hacc
    simp only [Bool.false_eq_true, if_false] at hacc
    split at hacc <;> simp at hacc
  have hge1 : R.auto_accept_threshold ≤ (calculate_mapping_score R p f c1).final_score := by
    have : decide (R.auto_accept_threshold ≤
        (calculate_mapping_score R p f c1).final_score) = true := ha1
    exact of_decide_eq_true this
  have ha2 : (calculate_mapping_score R p f c2).auto_accept = true :=
    decide_eq_true (le_trans hge1 hmono)
  simp [ha2]

/-- C6 witness: the default configuration, the concrete `status` profile and
candidate field, confidences 0.6 ≤ 0.9. -/
theorem C6_llm_monotone_witness :
    ((0 : ℚ) ≤ R0.weight_llm ∧ (0 : ℚ) ≤ 3/5 ∧ (3 : ℚ)/5 ≤ 1 ∧ (0 : ℚ) ≤ 9/10 ∧
      (9 : ℚ)/10 ≤ 1 ∧ (3 : ℚ)/5 ≤ 9/10) ∧
    ((calculate_mapping_score R0 profActive "status" (3/5)).final_score ≤
      (calculate_mapping_score R0 profActive "status" (9/10)).final_score ∧
    ((resolve_column_mapping R0
        { proposed_mappings :=
            [{ canonical_field := "status", justification := "looks like a status",
               confidence := 3/5 }],
          alternatives := [], reasoning := none } profActive 0).status = "accepted" →
     (resolve_column_mapping R0
        { proposed_mappings :=
            [{ canonical_field := "status", justification := "looks like a status",
               confidence := 9/10 }],
          alternatives := [], reasoning := none } profActive 0).status = "accepted")) :=
  ⟨by norm_num [R0],
   C6_llm_monotone R0 profActive "status"
     { canonical_field := "status", justification := "looks like a status", confidence := 3/5 }
     [] none 0 (3/5) (9/10) (by norm_num [R0]) (by norm_num) (by norm_num) (by norm_num)
     (by norm_num) (by norm_num)⟩

/-- C2: for every non-empty batch of column profiles,
`resolve_batch_mappings` returns exactly one `ColumnMapping` per input
profile (same length, and the `k`-th output is the mapping of the `k`-th
input profile, so nothing is dropped or duplicated), and every returned
mapping carries a terminal status in {accepted, hitl_required, rejected}
(never `pending`). -/
theorem C2_batch_total (R : Resolver) (env : ColumnProfile → LLMResponse) (ts : Nat → Nat)
    (profiles : List ColumnProfile) (_hne : profiles ≠ []) :
    (resolve_batch_mappings R env ts profiles).length = profiles.length ∧
    (∀ (k : Nat) (hk : k < (resolve_batch_mappings R env ts profiles).length)
       (hk' : k < profiles.length),
       ((resolve_batch_mappings R env ts profiles).get ⟨k, hk⟩).source_column =
         (profiles.get ⟨k, hk'⟩).source_column) ∧
    (∀ m ∈ resolve_batch_mappings R env ts profiles,
       m.status = "accepted" ∨ m.status = "hitl_required" ∨ m.status = "rejected") := by
  refine ⟨?_, ?_, ?_⟩
  · unfold resolve_batch_mappings
    rw [resolve_conflicts_length, resolveAll_length]
  · intro k hk hk'
    unfold resolve_batch_mappings at hk ⊢
    have hk2 : k < (resolveAll R env ts profiles 0).length := by
      rw [resolveAll_length]
      exact hk'
    rw [resolve_conflicts_get _ k hk hk2, step_source,
      resolveAll_get R env ts profiles 0 k hk2 hk', resolve_source]
  · intro m hm
    unfold resolve_batch_mappings resolve_conflicts at hm
    rcases List.mem_map.mp hm with ⟨m', hm', hstep⟩
    rcases resolveAll_mem R env ts profiles 0 m' hm' with ⟨p, n, hres⟩
    rcases step_status_or (resolveAll R env ts profiles 0) m' with hs | hs
    · rw [hstep] at hs
      rw [hs, hres]
      exact resolve_status_cases R (env p) p n
    · rw [hstep] at hs
      rw [hs]
      exact Or.inr (Or.inl rfl)

/-- C2 witness: the two-profile batch at the default configuration with the
identity clock; the hypotheses are discharged concretely. -/
theorem C2_batch_total_witness :
    ([profActive, profState] ≠ ([] : List ColumnProfile)) ∧
    ((resolve_batch_mappings R0 (fun _ => respStatus) id [profActive, profState]).length =
        ([profActive, profState] : List ColumnProfile).length ∧
     (∀ (k : Nat)
        (hk : k < (resolve_batch_mappings R0 (fun _ => respStatus) id [profActive, profState]).length)
        (hk' : k < ([profActive, profState] : List ColumnProfile).length),
        ((resolve_batch_mappings R0 (fun _ => respStatus) id [profActive, profState]).get
            ⟨k, hk⟩).source_column =
          (([profActive, profState] : List ColumnProfile).get ⟨k, hk'⟩).source_column) ∧
     (∀ m ∈ resolve_batch_mappings R0 (fun _ => respStatus) id [profActive, profState],
        m.status = "accepted" ∨ m.status = "hitl_required" ∨ m.status = "rejected")) :=
  ⟨by simp,
   C2_batch_total R0 (fun _ => respStatus) id [profActive, profState] (by simp)⟩

theorem div100_nonneg (n : Nat) : (0 : ℚ) ≤ (n : ℚ) / 100 := by
  positivity

theorem div100_le_one {n : Nat} (h : n ≤ 100) : (n : ℚ) / 100 ≤ 1 := by
  rw [div_le_one (by norm_num)]
  exact_mod_cast h

theorem name_similarity_bounds (R : Resolver) (src f : String)
    (hfr : ∀ s t, R.fuzzRatio s t ≤ 100) (hfp : ∀ s t, R.fuzzPartRatio s t ≤ 100)
    (hft : ∀ s t, R.fuzzTokenSortRatio s t ≤ 100) :
    0 ≤ calculate_name_similarity R src f ∧ calculate_name_similarity R src f ≤ 1 := by
  unfold calculate_name_similarity
  dsimp only
  constructor
  · exact le_trans (div100_nonneg _) (le_max_left _ _)
  · exact max_le (div100_le_one (hfr _ _))
      (max_le (div100_le_one (hfp _ _)) (div100_le_one (hft _ _)))

theorem compatScore_bounds (st : ColumnType) (expected : String) :
    0 ≤ compatScore st expected ∧ compatScore st expected ≤ 1 := by
  cases st <;> constructor <;> simp only [compatScore] <;> try split_ifs
  all_goals norm_num

theorem type_compatibility_bounds (R : Resolver) (st : ColumnType) (f : String) :
    0 ≤ calculate_type_compatibility R st f ∧ calculate_type_compatibility R st f ≤ 1 := by
  rcases h : R.fieldType f with _ | e
  · simp only [calculate_type_compatibility, h]
    norm_num
  · simp only [calculate_type_compatibility, h]
    exact compatScore_bounds st e

theorem profile_score_bounds (p : ColumnProfile) (f : String) :
    0 ≤ calculate_profile_score p f ∧ calculate_profile_score p f ≤ 1 := by
  unfold calculate_profile_score
  dsimp only
  constructor
  · refine le_min ?_ (by norm_num)
    repeat' split
    all_goals norm_num
  · exact min_le_right _ _

/-- C4: every sub-score of a computed `MappingScore` lies in [0,1] (the LLM
confidence is within the pydantic-validated [0,1] by hypothesis; the fuzzy
ratios of the external library lie in 0..100 by hypothesis), the
`final_score` equals exactly the configured weighted sum of the four
sub-scores, and when the four weights are nonnegative and sum to 1 the
`final_score` also lies in [0,1]. -/
theorem C4_score_bounds (R : Resolver) (p : ColumnProfile) (f : String) (c : ℚ)
    (hc0 : 0 ≤ c) (hc1 : c ≤ 1)
    (hfr : ∀ s t, R.fuzzRatio s t ≤ 100) (hfp : ∀ s t, R.fuzzPartRatio s t ≤ 100)
    (hft : ∀ s t, R.fuzzTokenSortRatio s t ≤ 100) :
    (0 ≤ (calculate_mapping_score R p f c).llm_confidence ∧
       (calculate_mapping_score R p f c).llm_confidence ≤ 1) ∧
    (0 ≤ (calculate_mapping_score R p f c).name_similarity ∧
       (calculate_mapping_score R p f c).name_similarity ≤ 1) ∧
    (0 ≤ (calculate_mapping_score R p f c).type_compatibility ∧
       (calculate_mapping_score R p f c).type_compatibility ≤ 1) ∧
    (0 ≤ (calculate_mapping_score R p f c).value_range_match ∧
       (calculate_mapping_score R p f c).value_range_match ≤ 1) ∧
    (calculate_mapping_score R p f c).final_score =
      R.weight_llm * (calculate_mapping_score R p f c).llm_confidence +
        R.weight_name * (calculate_mapping_score R p f c).name_similarity +
        R.weight_type * (calculate_mapping_score R p f c).type_compatibility +
        R.weight_profile * (calculate_mapping_score R p f c).value_range_match ∧
    (0 ≤ R.weight_llm → 0 ≤ R.weight_name → 0 ≤ R.weight_type → 0 ≤ R.weight_profile →
      R.weight_llm + R.weight_name + R.weight_type + R.weight_profile = 1 →
      0 ≤ (calculate_mapping_score R p f c).final_score ∧
        (calculate_mapping_score R p f c).final_score ≤ 1) := by
  have hname := name_similarity_bounds R p.source_column.column f hfr hfp hft
  have htype := type_compatibility_bounds R p.inferred_type f
  have hval := profile_score_bounds p f
  have ellm : (calculate_mapping_score R p f c).llm_confidence = c := rfl
  have ename : (calculate_mapping_score R p f c).name_similarity =
      calculate_name_similarity R p.source_column.column f := rfl
  have etype : (calculate_mapping_score R p f c).type_compatibility =
      calculate_type_compatibility R p.inferred_type f := rfl
  have eval : (calculate_mapping_score R p f c).value_range_match =
      calculate_profile_score p f := rfl
  have efin : (calculate_mapping_score R p f c).final_score =
      R.weight_llm * c +
        R.weight_name * calculate_name_similarity R p.source_column.column f +
        R.weight_type * calculate_type_compatibility R p.inferred_type f +
        R.weight_profile * calculate_profile_score p f := rfl
  refine ⟨⟨by rw [ellm]; exact hc0, by rw [ellm]; exact hc1⟩,
          ⟨by rw [ename]; exact hname.1, by rw [ename]; exact hname.2⟩,
          ⟨by rw [etype]; exact htype.1, by rw [etype]; exact htype.2⟩,
          ⟨by rw [eval]; exact hval.1, by rw [eval]; exact hval.2⟩,
          by rw [efin, ellm, ename, etype, eval], ?_⟩
  intro hw1 hw2 hw3 hw4 hsum
  constructor
  · rw [efin]
    have m1 := mul_nonneg hw1 hc0
    have m2 := mul_nonneg hw2 hname.1
    have m3 := mul_nonneg hw3 htype.1
    have m4 := mul_nonneg hw4 hval.1
    linarith
  · rw [efin]
    have u1 : R.weight_llm * c ≤ R.weight_llm := by
      have := mul_le_mul_of_nonneg_left hc1 hw1
      linarith
    have u2 : R.weight_name * calculate_name_similarity R p.source_column.column f ≤
        R.weight_name := by
      have := mul_le_mul_of_nonneg_left hname.2 hw2
      linarith
    have u3 : R.weight_type * calculate_type_compatibility R p.inferred_type f ≤
        R.weight_type := by
      have := mul_le_mul_of_nonneg_left htype.2 hw3
      linarith
    have u4 : R.weight_profile * calculate_profile_score p f ≤ R.weight_profile := by
      have := mul_le_mul_of_nonneg_left hval.2 hw4
      linarith
    linarith

/-- C4 witness: default configuration, the concrete `status` profile, the
`status` candidate and confidence 0.9; all hypotheses hold of `R0`. -/
theorem C4_score_bounds_witness :
    ((0 : ℚ) ≤ 9/10 ∧ (9 : ℚ)/10 ≤ 1 ∧
      (∀ s t, R0.fuzzRatio s t ≤ 100) ∧ (∀ s t, R0.fuzzPartRatio s t ≤ 100) ∧
      (∀ s t, R0.fuzzTokenSortRatio s t ≤ 100)) ∧
    ((0 ≤ (calculate_mapping_score R0 profActive "status" (9/10)).llm_confidence ∧
       (calculate_mapping_score R0 profActive "status" (9/10)).llm_confidence ≤ 1) ∧
    (0 ≤ (calculate_mapping_score R0 profActive "status" (9/10)).name_similarity ∧
       (calculate_mapping_score R0 profActive "status" (9/10)).name_similarity ≤ 1) ∧
    (0 ≤ (calculate_mapping_score R0 profActive "status" (9/10)).type_compatibility ∧
       (calculate_mapping_score R0 profActive "status" (9/10)).type_compatibility ≤ 1) ∧
    (0 ≤ (calculate_mapping_score R0 profActive "status" (9/10)).value_range_match ∧
       (calculate_mapping_score R0 profActive "status" (9/10)).value_range_match ≤ 1) ∧
    (calculate_mapping_score R0 profActive "status" (9/10)).final_score =
      R0.weight_llm * (calculate_mapping_score R0 profActive "status" (9/10)).llm_confidence +
        R0.weight_name * (calculate_mapping_score R0 profActive "status" (9/10)).name_similarity +
        R0.weight_type * (calculate_mapping_score R0 profActive "status" (9/10)).type_compatibility +
        R0.weight_profile * (calculate_mapping_score R0 profActive "status" (9/10)).value_range_match ∧
    (0 ≤ R0.weight_llm → 0 ≤ R0.weight_name → 0 ≤ R0.weight_type → 0 ≤ R0.weight_profile →
      R0.weight_llm + R0.weight_name + R0.weight_type + R0.weight_profile = 1 →
      0 ≤ (calculate_mapping_score R0 profActive "status" (9/10)).final_score ∧
        (calculate_mapping_score R0 profActive "status" (9/10)).final_score ≤ 1)) :=
  ⟨⟨by norm_num, by norm_num,
    fun s t => by show eqFuzz s t ≤ 100; unfold eqFuzz; split <;> norm_num,
    fun s t => by show eqFuzz s t ≤ 100; unfold eqFuzz; split <;> norm_num,
    fun s t => by show eqFuzz s t ≤ 100; unfold eqFuzz; split <;> norm_num⟩,
   C4_score_bounds R0 profActive "status" (9/10) (by norm_num) (by norm_num)
     (fun s t => by show eqFuzz s t ≤ 100; unfold eqFuzz; split <;> norm_num)
     (fun s t => by show eqFuzz s t ≤ 100; unfold eqFuzz; split <;> norm_num)
     (fun s t => by show eqFuzz s t ≤ 100; unfold eqFuzz; split <;> norm_num)⟩

theorem conflicts_exclusive (ms : List ColumnMapping) (i j : Nat) (f : String)
    (hi : i < (resolve_conflicts ms).length) (hj : j < (resolve_conflicts ms).length)
    (hi' : i < ms.length) (hj' : j < ms.length)
    (hne : ms.get ⟨i, hi'⟩ ≠ ms.get ⟨j, hj'⟩) (hf : f ≠ "")
    (hsi : ((resolve_conflicts ms).get ⟨i, hi⟩).status = "accepted")
    (hsj : ((resolve_conflicts ms).get ⟨j, hj⟩).status = "accepted")
    (hfi : ((resolve_conflicts ms).get ⟨i, hi⟩).canonical_field = some f)
    (hfj : ((resolve_conflicts ms).get ⟨j, hj⟩).canonical_field = some f) : False := by
  rw [resolve_conflicts_get ms i hi hi'] at hsi hfi
  rw [resolve_conflicts_get ms j hj hj'] at hsj hfj
  obtain ⟨hkepti, hacci⟩ := step_accepted_kept ms _ hsi
  obtain ⟨hkeptj, haccj⟩ := step_accepted_kept ms _ hsj
  rw [step_field] at hfi hfj
  have hmemi : ms.get ⟨i, hi'⟩ ∈ conflictGroup ms f :=
    mem_conflictGroup ms _ f (List.get_mem ms i hi') hfi (by rw [hacci]; decide)
  have hmemj : ms.get ⟨j, hj'⟩ ∈ conflictGroup ms f :=
    mem_conflictGroup ms _ f (List.get_mem ms j hj') hfj (by rw [haccj]; decide)
  have hlen : 2 ≤ (conflictGroup ms f).length := two_mem_length hmemi hmemj hne
  have b1 := kept_accepted_best ms _ f hacci hfi hf hkepti hlen
  have b2 := kept_accepted_best ms _ f haccj hfj hf hkeptj hlen
  rw [b1] at b2
  exact hne (Option.some.inj b2)

theorem conflicts_demote (ms : List ColumnMapping) (i j : Nat) (f : String)
    (hi : i < (resolve_conflicts ms).length) (hj : j < (resolve_conflicts ms).length)
    (hi' : i < ms.length) (hj' : j < ms.length)
    (hne : ms.get ⟨i, hi'⟩ ≠ ms.get ⟨j, hj'⟩) (hf : f ≠ "")
    (hsi : ((resolve_conflicts ms).get ⟨i, hi⟩).status = "accepted")
    (hfi : ((resolve_conflicts ms).get ⟨i, hi⟩).canonical_field = some f)
    (hfj : ((resolve_conflicts ms).get ⟨j, hj⟩).canonical_field = some f)
    (hsj : ((resolve_conflicts ms).get ⟨j, hj⟩).status ≠ "rejected") :
    ((resolve_conflicts ms).get ⟨j, hj⟩).status = "hitl_required" ∧
    ((resolve_conflicts ms).get ⟨j, hj⟩).human_feedback =
      some ("Conflict with " ++
        ((resolve_conflicts ms).get ⟨i, hi⟩).source_column.column) := by
  rw [resolve_conflicts_get ms i hi hi'] at hsi hfi
  rw [resolve_conflicts_get ms j hj hj'] at hfj hsj
  rw [resolve_conflicts_get ms i hi hi', resolve_conflicts_get ms j hj hj', step_source]
  obtain ⟨hkepti, hacci⟩ := step_accepted_kept ms _ hsi
  rw [step_field] at hfi hfj
  have hnrj : (ms.get ⟨j, hj'⟩).status ≠ "rejected" := by
    intro h
    exact hsj ((step_rejected_iff ms _).mpr h)
  have hmemi : ms.get ⟨i, hi'⟩ ∈ conflictGroup ms f :=
    mem_conflictGroup ms _ f (List.get_mem ms i hi') hfi (by rw [hacci]; decide)
  have hmemj : ms.get ⟨j, hj'⟩ ∈ conflictGroup ms f :=
    mem_conflictGroup ms _ f (List.get_mem ms j hj') hfj hnrj
  have hlen : 2 ≤ (conflictGroup ms f).length := two_mem_length hmemi hmemj hne
  have b1 := kept_accepted_best ms _ f hacci hfi hf hkepti hlen
  have hstep := step_demote ms (ms.get ⟨j, hj'⟩) (ms.get ⟨i, hi'⟩) f hfj hf hnrj hlen b1
    (fun h => hne h.symm)
  rw [hstep]
  exact ⟨rfl, rfl⟩

/-- C1: after `resolve_batch_mappings` runs its conflict-resolution pass
(under an injective wall clock, a Proposal Source that names only nonempty
canonical fields, and a catalog without an empty field name — the settings
under which the pydantic `==` of `_resolve_conflicts` acts as identity), at
most one returned mapping with status `accepted` names any given canonical
field; any other mapping naming that field that is not rejected ends with
status `hitl_required` and a `human_feedback` note naming the winning
column; and no mapping is removed — the output has exactly one entry per
input profile, positionally matching its source column. -/
theorem C1_conflict_exclusive (R : Resolver) (env : ColumnProfile → LLMResponse)
    (ts : Nat → Nat) (profiles : List ColumnProfile)
    (hts : Function.Injective ts)
    (henv : ∀ p pr, pr ∈ (env p).proposed_mappings → pr.canonical_field ≠ "") :
    ((resolve_batch_mappings R env ts profiles).length = profiles.length ∧
     ∀ (k : Nat) (hk : k < (resolve_batch_mappings R env ts profiles).length)
       (hk' : k < profiles.length),
       ((resolve_batch_mappings R env ts profiles).get ⟨k, hk⟩).source_column =
         (profiles.get ⟨k, hk'⟩).source_column) ∧
    (∀ (i j : Nat) (hi : i < (resolve_batch_mappings R env ts profiles).length)
       (hj : j < (resolve_batch_mappings R env ts profiles).length) (f : String),
       i ≠ j →
       ((resolve_batch_mappings R env ts profiles).get ⟨i, hi⟩).status = "accepted" →
       ((resolve_batch_mappings R env ts profiles).get ⟨i, hi⟩).canonical_field = some f →
       ((resolve_batch_mappings R env ts profiles).get ⟨j, hj⟩).canonical_field = some f →
       ((resolve_batch_mappings R env ts profiles).get ⟨j, hj⟩).status ≠ "accepted" ∧
       (((resolve_batch_mappings R env ts profiles).get ⟨j, hj⟩).status ≠ "rejected" →
         ((resolve_batch_mappings R env ts profiles).get ⟨j, hj⟩).status = "hitl_required" ∧
         ((resolve_batch_mappings R env ts profiles).get ⟨j, hj⟩).human_feedback =
           some ("Conflict with " ++
             ((resolve_batch_mappings R env ts profiles).get ⟨i, hi⟩).source_column.column))) := by
  unfold resolve_batch_mappings
  have hmsget : ∀ (k : Nat) (hk : k < (resolveAll R env ts profiles 0).length)
      (hk' : k < profiles.length),
      (resolveAll R env ts profiles 0).get ⟨k, hk⟩ =
        resolve_column_mapping R (env (profiles.get ⟨k, hk'⟩)) (profiles.get ⟨k, hk'⟩) (ts k) := by
    intro k hk hk'
    rw [resolveAll_get R env ts profiles 0 k hk hk', Nat.zero_add]
  have hlen_ms : (resolveAll R env ts profiles 0).length = profiles.length :=
    resolveAll_length R env ts profiles 0
  have hdistinct : ∀ (i j : Nat) (hi : i < (resolveAll R env ts profiles 0).length)
      (hj : j < (resolveAll R env ts profiles 0).length), i ≠ j →
      (resolveAll R env ts profiles 0).get ⟨i, hi⟩ ≠
        (resolveAll R env ts profiles 0).get ⟨j, hj⟩ := by
    intro i j hi hj hij heq
    have hi2 : i < profiles.length := hlen_ms ▸ hi
    have hj2 : j < profiles.length := hlen_ms ▸ hj
    have e1 : ((resolveAll R env ts profiles 0).get ⟨i, hi⟩).created_at = ts i := by
      rw [hmsget i hi hi2, resolve_created_at]
    have e2 : ((resolveAll R env ts profiles 0).get ⟨j, hj⟩).created_at = ts j := by
      rw [hmsget j hj hj2, resolve_created_at]
    exact hij (hts (by rw [← e1, ← e2, heq]))
  have hfne : ∀ (k : Nat) (hk : k < (resolve_conflicts (resolveAll R env ts profiles 0)).length)
      (f : String),
      ((resolve_conflicts (resolveAll R env ts profiles 0)).get ⟨k, hk⟩).status = "accepted" →
      ((resolve_conflicts (resolveAll R env ts profiles 0)).get ⟨k, hk⟩).canonical_field = some f →
      f ≠ "" := by
    intro k hk f hs hfld
    have hk1 : k < (resolveAll R env ts profiles 0).length := by
      have := resolve_conflicts_length (resolveAll R env ts profiles 0)
      omega
    have hk2 : k < profiles.length := hlen_ms ▸ hk1
    rw [resolve_conflicts_get _ k hk hk1] at hs hfld
    obtain ⟨_, hacc⟩ := step_accepted_kept _ _ hs
    rw [step_field] at hfld
    rw [hmsget k hk1 hk2] at hacc hfld
    rcases resolve_accepted R _ _ _ hacc with ⟨b, _, hbmem, hbf, _⟩
    rw [hbf] at hfld
    have : f = b.1.canonical_field := (Option.some.inj hfld).symm
    rw [this]
    exact henv _ _ hbmem
  refine ⟨⟨?_, ?_⟩, ?_⟩
  · rw [resolve_conflicts_length, hlen_ms]
  · intro k hk hk'
    have hk1 : k < (resolveAll R env ts profiles 0).length := by
      have := resolve_conflicts_length (resolveAll R env ts profiles 0)
      omega
    rw [resolve_conflicts_get _ k hk hk1, step_source, hmsget k hk1 hk', resolve_source]
  · intro i j hi hj f hij hsi hfi hfj
    have hi1 : i < (resolveAll R env ts profiles 0).length := by
      have := resolve_conflicts_length (resolveAll R env ts profiles 0)
      omega
    have hj1 : j < (resolveAll R env ts profiles 0).length := by
      have := resolve_conflicts_length (resolveAll R env ts profiles 0)
      omega
    have hne := hdistinct i j hi1 hj1 hij
    have hf : f ≠ "" := hfne i hi f hsi hfi
    constructor
    · intro hsj
      exact conflicts_exclusive _ i j f hi hj hi1 hj1 hne hf hsi hsj hfi hfj
    · intro hsj
      exact conflicts_demote _ i j f hi hj hi1 hj1 hne hf hsi hfi hfj hsj

/-- C1 witness: the two-profile batch (`status` and `state` columns, both
proposed for the canonical field `status`) under the identity clock; the
run yields one accepted winner and one demoted `hitl_required` loser. -/
theorem C1_conflict_exclusive_witness :
    (Function.Injective (id : Nat → Nat) ∧
      (∀ (p : ColumnProfile) (pr : MappingProposal),
        pr ∈ ((fun _ => respStatus) p : LLMResponse).proposed_mappings →
        pr.canonical_field ≠ "")) ∧
    (((resolve_batch_mappings R0 (fun _ => respStatus) id [profActive, profState]).length =
        ([profActive, profState] : List ColumnProfile).length ∧
      ∀ (k : Nat)
        (hk : k < (resolve_batch_mappings R0 (fun _ => respStatus) id [profActive, profState]).length)
        (hk' : k < ([profActive, profState] : List ColumnProfile).length),
        ((resolve_batch_mappings R0 (fun _ => respStatus) id [profActive, profState]).get
            ⟨k, hk⟩).source_column =
          (([profActive, profState] : List ColumnProfile).get ⟨k, hk'⟩).source_column) ∧
     (∀ (i j : Nat)
        (hi : i < (resolve_batch_mappings R0 (fun _ => respStatus) id [profActive, profState]).length)
        (hj : j < (resolve_batch_mappings R0 (fun _ => respStatus) id [profActive, profState]).length)
        (f : String),
        i ≠ j →
        ((resolve_batch_mappings R0 (fun _ => respStatus) id [profActive, profState]).get
            ⟨i, hi⟩).status = "accepted" →
        ((resolve_batch_mappings R0 (fun _ => respStatus) id [profActive, profState]).get
            ⟨i, hi⟩).canonical_field = some f →
        ((resolve_batch_mappings R0 (fun _ => respStatus) id [profActive, profState]).get
            ⟨j, hj⟩).canonical_field = some f →
        ((resolve_batch_mappings R0 (fun _ => respStatus) id [profActive, profState]).get
            ⟨j, hj⟩).status ≠ "accepted" ∧
        (((resolve_batch_mappings R0 (fun _ => respStatus) id [profActive, profState]).get
            ⟨j, hj⟩).status ≠ "rejected" →
          ((resolve_batch_mappings R0 (fun _ => respStatus) id [profActive, profState]).get
              ⟨j, hj⟩).status = "hitl_required" ∧
          ((resolve_batch_mappings R0 (fun _ => respStatus) id [profActive, profState]).get
              ⟨j, hj⟩).human_feedback =
            some ("Conflict with " ++
              ((resolve_batch_mappings R0 (fun _ => respStatus) id
                  [profActive, profState]).get ⟨i, hi⟩).source_column.column)))) :=
  ⟨⟨fun _ _ h => h,
    fun p pr hpr => by
      simp only [respStatus, List.mem_singleton] at hpr
      rw [hpr]
      decide⟩,
   C1_conflict_exclusive R0 (fun _ => respStatus) id [profActive, profState]
     (fun _ _ h => h)
     (fun p pr hpr => by
       simp only [respStatus, List.mem_singleton] at hpr
       rw [hpr]
       decide)⟩

/-! ## Concrete evaluations (the kernel reduces the string/list layer, while
the rational arithmetic is settled by `norm_num`) -/

theorem eqFuzz_self (s : String) : eqFuzz s s = 100 :=
  if_pos rfl

theorem name_similarity_self (a : String) : calculate_name_similarity R0 a a = 1 := by
  show max ((eqFuzz (normalize_name a) (normalize_name a) : ℚ) / 100)
      (max ((eqFuzz (normalize_name a) (normalize_name a) : ℚ) / 100)
        ((eqFuzz (strLower a) (strLower a) : ℚ) / 100)) = 1
  rw [eqFuzz_self, eqFuzz_self]
  norm_num

theorem fieldType_status : R0.fieldType "status" = some "enum" :=
  rfl

theorem type_compat_string_status :
    calculate_type_compatibility R0 ColumnType.string "status" = 4/5 :=
  rfl

theorem profile_score_status (p : ColumnProfile) :
    calculate_profile_score p "status" =
      min ((if p.distinct_ratio < 3/10 then (2 : ℚ)/5 else 0) +
        (if p.sample_values.any (fun v => statusKeywords.any (fun k => strContains (strLower v) k))
          then (3 : ℚ)/10 else 0)) 1 :=
  rfl

theorem profile_score_profNull : calculate_profile_score profNull "status" = 2/5 := by
  rw [profile_score_status]
  have h1 : profNull.distinct_ratio < 3/10 := by norm_num [profNull]
  have h2 : (profNull.sample_values.any
      (fun v => statusKeywords.any (fun k => strContains (strLower v) k))) = false := rfl
  rw [if_pos h1, if_neg (by simp [h2])]
  rw [min_eq_left (by norm_num)]
  norm_num

theorem profile_score_profActive : calculate_profile_score profActive "status" = 7/10 := by
  rw [profile_score_status]
  have h1 : profActive.distinct_ratio < 3/10 := by norm_num [profActive]
  have h2 : (profActive.sample_values.any
      (fun v => statusKeywords.any (fun k => strContains (strLower v) k))) = true := by decide
  rw [if_pos h1, if_pos h2]
  rw [min_eq_left (by norm_num)]
  norm_num

theorem final_score_expand (R : Resolver) (p : ColumnProfile) (f : String) (c : ℚ) :
    (calculate_mapping_score R p f c).final_score =
      R.weight_llm * c +
        R.weight_name * calculate_name_similarity R p.source_column.column f +
        R.weight_type * calculate_type_compatibility R p.inferred_type f +
        R.weight_profile * calculate_profile_score p f :=
  rfl

theorem score_profNull_final (c : ℚ) :
    (calculate_mapping_score R0 profNull "status" c).final_score = 1/2 * c + 2/5 := by
  rw [final_score_expand]
  have hn : calculate_name_similarity R0 profNull.source_column.column "status" = 1 :=
    name_similarity_self "status"
  have ht : calculate_type_compatibility R0 profNull.inferred_type "status" = 4/5 :=
    type_compat_string_status
  rw [hn, ht, profile_score_profNull]
  show (1 : ℚ)/2 * c + 1/5 * 1 + 1/5 * (4/5) + 1/10 * (2/5) = 1/2 * c + 2/5
  ring

theorem score_profActive_final (c : ℚ) :
    (calculate_mapping_score R0 profActive "status" c).final_score = 1/2 * c + 43/100 := by
  rw [final_score_expand]
  have hn : calculate_name_similarity R0 profActive.source_column.column "status" = 1 :=
    name_similarity_self "status"
  have ht : calculate_type_compatibility R0 profActive.inferred_type "status" = 4/5 :=
    type_compat_string_status
  rw [hn, ht, profile_score_profActive]
  show (1 : ℚ)/2 * c + 1/5 * 1 + 1/5 * (4/5) + 1/10 * (7/10) = 1/2 * c + 43/100
  ring

theorem profile_column_sdNull : profile_column env0 scStatus sdNull = profNull := by
  unfold profile_column
  rw [show sdNull.getCol scStatus.column = some [none] from rfl]
  dsimp only
  unfold profNull
  simp only [ColumnProfile.mk.injEq]
  norm_num
  refine ⟨rfl, rfl, rfl, rfl, by decide⟩

theorem heuristicBest_profActive : heuristicBest R0 profActive = (some "status", 43/50) := by
  have hh : (R0.weight_name * (calculate_mapping_score R0 profActive "status" 0).name_similarity +
      R0.weight_type * (calculate_mapping_score R0 profActive "status" 0).type_compatibility +
      R0.weight_profile * (calculate_mapping_score R0 profActive "status" 0).value_range_match) /
      (R0.weight_name + R0.weight_type + R0.weight_profile) = 43/50 := by
    have hn : (calculate_mapping_score R0 profActive "status" 0).name_similarity = 1 :=
      name_similarity_self "status"
    have ht : (calculate_mapping_score R0 profActive "status" 0).type_compatibility = 4/5 :=
      type_compat_string_status
    have hv : (calculate_mapping_score R0 profActive "status" 0).value_range_match = 7/10 :=
      profile_score_profActive
    rw [hn, ht, hv]
    show ((1 : ℚ)/5 * 1 + 1/5 * (4/5) + 1/10 * (7/10)) / (1/5 + 1/5 + 1/10) = 43/50
    norm_num
  show (if (R0.weight_name * (calculate_mapping_score R0 profActive "status" 0).name_similarity +
      R0.weight_type * (calculate_mapping_score R0 profActive "status" 0).type_compatibility +
      R0.weight_profile * (calculate_mapping_score R0 profActive "status" 0).value_range_match) /
      (R0.weight_name + R0.weight_type + R0.weight_profile) > (0 : ℚ)
    then (some "status",
      (R0.weight_name * (calculate_mapping_score R0 profActive "status" 0).name_similarity +
        R0.weight_type * (calculate_mapping_score R0 profActive "status" 0).type_compatibility +
        R0.weight_profile * (calculate_mapping_score R0 profActive "status" 0).value_range_match) /
        (R0.weight_name + R0.weight_type + R0.weight_profile))
    else ((none : Option String), (0 : ℚ))) = (some "status", 43/50)
  rw [hh]
  rw [if_pos (by norm_num : (43 : ℚ)/50 > 0)]

/-- C7 (code-bug evidence): `_infer_column_type` classifies the all-decimal
column `[1.5, 2.5, 3.5]` as `int`, because `_is_numeric_type(data, int)`
calls `pd.to_numeric(..., downcast='integer')`, which only raises for
non-numeric values — `downcast` never raises on non-integral numbers, so
the integer branch fires for every numeric column.  The claim (and the
repository's own `test_type_inference`, which asserts `DECIMAL` for this
exact column) says such a column is `decimal`. -/
theorem C7_int_inference_bug :
    infer_column_type env0 [some "1.5", some "2.5", some "3.5"] = ColumnType.int ∧
    infer_column_type env0 [some "1.5", some "2.5", some "3.5"] ≠ ColumnType.decimal := by
  decide

/-- C8 counterexample: a one-row all-null `status` column.  Its profile is
not the empty profile (`total_rows` is 1, not 0), and resolving it with a
0.9-confidence `status` proposal under the default configuration yields
status `accepted` (final score 0.85 ≥ 0.75: the LLM, name and type signals
alone clear the bar, helped by the `distinct_ratio < 0.3` enum heuristic
which fires vacuously on an all-null column), refuting both halves of the
claim. -/
theorem C8_allnull_counterexample :
    (profile_column env0 scStatus sdNull).total_rows = 1 ∧
    profile_column env0 scStatus sdNull ≠ empty_profile scStatus ∧
    (resolve_column_mapping R0 respStatus (profile_column env0 scStatus sdNull) 0).status =
      "accepted" := by
  refine ⟨by rw [profile_column_sdNull]; rfl, ?_, ?_⟩
  · rw [profile_column_sdNull]
    intro h
    have := congrArg ColumnProfile.total_rows h
    simp [profNull, empty_profile] at this
  · rw [profile_column_sdNull]
    have hb : bestScored R0 profNull respStatus =
        some ({ canonical_field := "status", justification := "looks like a status",
                confidence := 9/10 },
          calculate_mapping_score R0 profNull "status" (9/10)) := rfl
    rw [resolve_some_spec R0 respStatus profNull 0 _ hb]
    have hauto : (calculate_mapping_score R0 profNull "status" (9/10)).auto_accept = true := by
      have hle : R0.auto_accept_threshold ≤
          (calculate_mapping_score R0 profNull "status" (9/10)).final_score := by
        rw [score_profNull_final]
        show (3 : ℚ)/4 ≤ 1/2 * (9/10) + 2/5
        norm_num
      exact decide_eq_true hle
    simp [hauto]

/-- C8 (amended): for a column present in the sample data all of whose
values are null, the profile's value-derived statistics are zero
(`non_null_count`, `distinct_count`, `distinct_ratio`), it has no sample
values and inferred type `string` (`total_rows` however is the raw row
count, so the profile is the all-zero empty profile only when the table has
no rows); resolving such a profile always completes, and when the Proposal
Source returns zero proposals the status is `hitl_required` or `rejected`,
never `accepted` — with proposals, `accepted` is reachable (see the
counterexample). -/
theorem C8_allnull_amended (env : TypeEnv) (sc : SourceColumn) (sd : SampleData)
    (vals : List (Option String)) (hcol : sd.getCol sc.column = some vals)
    (hnull : ∀ v ∈ vals, v = none) :
    (profile_column env sc sd).non_null_count = 0 ∧
    (profile_column env sc sd).distinct_count = 0 ∧
    (profile_column env sc sd).distinct_ratio = 0 ∧
    (profile_column env sc sd).sample_values = [] ∧
    (profile_column env sc sd).inferred_type = ColumnType.string ∧
    (∀ (R : Resolver) (llm : LLMResponse) (now : Nat), llm.proposed_mappings = [] →
      (resolve_column_mapping R llm (profile_column env sc sd) now).status = "hitl_required" ∨
      (resolve_column_mapping R llm (profile_column env sc sd) now).status = "rejected") := by
  have hfm : vals.filterMap id = [] := filterMap_id_of_all_none hnull
  refine ⟨?_, ?_, ?_, ?_, ?_, ?_⟩
  · unfold profile_column
    rw [hcol]
    dsimp only
    rw [hfm]
    rfl
  · unfold profile_column
    rw [hcol]
    dsimp only
    rw [hfm]
    rfl
  · unfold profile_column
    rw [hcol]
    dsimp only
    rw [hfm]
    split
    · norm_num [dedupFirst, dedupFirstAux]
    · rfl
  · unfold profile_column
    rw [hcol]
    dsimp only
    rw [hfm]
    rfl
  · unfold profile_column
    rw [hcol]
    dsimp only
    unfold infer_column_type
    dsimp only
    rw [hfm]
    simp
  · intro R llm now h
    rw [resolve_heuristic R llm _ now h]
    exact heuristic_status R llm _ now

/-- C8 amended witness: the concrete one-row all-null `status` table. -/
theorem C8_allnull_amended_witness :
    (sdNull.getCol scStatus.column = some [none] ∧ (∀ v ∈ ([none] : List (Option String)), v = none)) ∧
    ((profile_column env0 scStatus sdNull).non_null_count = 0 ∧
     (profile_column env0 scStatus sdNull).distinct_count = 0 ∧
     (profile_column env0 scStatus sdNull).distinct_ratio = 0 ∧
     (profile_column env0 scStatus sdNull).sample_values = [] ∧
     (profile_column env0 scStatus sdNull).inferred_type = ColumnType.string ∧
     (∀ (R : Resolver) (llm : LLMResponse) (now : Nat), llm.proposed_mappings = [] →
       (resolve_column_mapping R llm (profile_column env0 scStatus sdNull) now).status =
           "hitl_required" ∨
       (resolve_column_mapping R llm (profile_column env0 scStatus sdNull) now).status =
           "rejected")) :=
  ⟨⟨rfl, by simp⟩,
   C8_allnull_amended env0 scStatus sdNull [none] rfl (by simp)⟩

/-- C9 counterexample: with an empty Proposal Source response, the concrete
`status`-keyword profile takes the heuristic-only fallback path and ends
with status `hitl_required` while carrying no `MappingScore` at all
(`mapping_score` is `None`), so the review surface has no four-sub-score
breakdown to display, refuting the claim for the fallback path. -/
theorem C9_hitl_score_counterexample :
    (resolve_column_mapping R0 respNone profActive 0).status = "hitl_required" ∧
    (resolve_column_mapping R0 respNone profActive 0).mapping_score = none := by
  have hgt : (heuristicBest R0 profActive).2 > 3/5 := by
    rw [heuristicBest_profActive]
    norm_num
  constructor
  · rw [resolve_heuristic R0 respNone profActive 0 rfl]
    exact (heuristic_hitl R0 respNone profActive 0 hgt).1
  · rw [resolve_heuristic R0 respNone profActive 0 rfl]
    exact heuristic_score_none R0 respNone profActive 0

/-- C9 (amended): on the proposal-scoring path every resolved mapping —
in particular every `hitl_required` one — carries the winning proposal's
`MappingScore` unchanged from the scoring step (all four sub-scores), for
any resulting status; on the heuristic-only fallback path the mapping
carries no `MappingScore` (`mapping_score` is `None`). -/
theorem C9_hitl_score_amended (R : Resolver) (llm : LLMResponse) (p : ColumnProfile) (now : Nat) :
    (∀ b, bestScored R p llm = some b →
      (resolve_column_mapping R llm p now).mapping_score = some b.2) ∧
    (llm.proposed_mappings = [] →
      (resolve_column_mapping R llm p now).mapping_score = none) := by
  constructor
  · intro b hb
    rw [resolve_some_spec R llm p now b hb]
    split
    · rfl
    · split <;> rfl
  · intro h
    rw [resolve_heuristic R llm p now h]
    exact heuristic_score_none R llm p now

/-- C9 amended witness: the concrete proposal-path and fallback-path
instantiations. -/
theorem C9_hitl_score_amended_witness :
    (bestScored R0 profActive respStatus =
      some ({ canonical_field := "status", justification := "looks like a status",
              confidence := 9/10 },
        calculate_mapping_score R0 profActive "status" (9/10)) ∧
     respNone.proposed_mappings = []) ∧
    ((resolve_column_mapping R0 respStatus profActive 0).mapping_score =
      some (calculate_mapping_score R0 profActive "status" (9/10)) ∧
     (resolve_column_mapping R0 respNone profActive 0).mapping_score = none) :=
  ⟨⟨rfl, rfl⟩,
   ⟨(C9_hitl_score_amended R0 respStatus profActive 0).1
      ({ canonical_field := "status", justification := "looks like a status",
         confidence := 9/10 },
        calculate_mapping_score R0 profActive "status" (9/10)) rfl,
    (C9_hitl_score_amended R0 respNone profActive 0).2 rfl⟩⟩

/-! ## Lemmas about batch profiling -/

theorem profile_column_source (env : TypeEnv) (sc : SourceColumn) (sd : SampleData) :
    (profile_column env sc sd).source_column = sc := by
  unfold profile_column
  cases h : sd.getCol sc.column with
  | none => rfl
  | some colData => rfl

theorem profileTableGo_acc_mem (profileFn : SourceColumn → SampleData → Except Unit ColumnProfile)
    (sd : SampleData) (allCols : List SourceColumn) :
    ∀ (l : List SourceColumn) (acc : List ColumnProfile) (x : ColumnProfile), x ∈ acc →
      x ∈ profileTableGo profileFn sd allCols acc l := by
  intro l
  induction l with
  | nil => intro acc x hx; exact hx
  | cons c rest ih =>
    intro acc x hx
    cases h : profileFn c sd with
    | error e =>
      simp only [profileTableGo, h]
      exact List.mem_append_left _ hx
    | ok p =>
      simp only [profileTableGo, h]
      exact ih (acc ++ [p]) x (List.mem_append_left _ hx)

theorem profileTableGo_covers (profileFn : SourceColumn → SampleData → Except Unit ColumnProfile)
    (sd : SampleData) (allCols : List SourceColumn)
    (hwf : ∀ c p, profileFn c sd = Except.ok p → p.source_column = c) :
    ∀ (l : List SourceColumn) (acc : List ColumnProfile),
      (∀ c ∈ l, c ∈ allCols) →
      ∀ c ∈ l, ∃ q ∈ profileTableGo profileFn sd allCols acc l, q.source_column = c := by
  intro l
  induction l with
  | nil => intro acc _ c hc; cases hc
  | cons c0 rest ih =>
    intro acc hsub c hc
    cases h : profileFn c0 sd with
    | error e =>
      simp only [profileTableGo, h]
      exact ⟨empty_profile c, List.mem_append_right _ (List.mem_map.mpr ⟨c, hsub c hc, rfl⟩), rfl⟩
    | ok p =>
      simp only [profileTableGo, h]
      rcases List.mem_cons.mp hc with rfl | hc'
      · exact ⟨p, profileTableGo_acc_mem profileFn sd allCols rest (acc ++ [p]) p (by simp),
          hwf c p h⟩
      · exact ih (acc ++ [p]) (fun d hd => hsub d (List.mem_cons_of_mem _ hd)) c hc'

theorem profileTableGo_all_ok (profileFn : SourceColumn → SampleData → Except Unit ColumnProfile)
    (sd : SampleData) (allCols : List SourceColumn) :
    ∀ (l : List SourceColumn) (acc : List ColumnProfile),
      (∀ c ∈ l, ∃ p, profileFn c sd = Except.ok p) →
      (profileTableGo profileFn sd allCols acc l).length = acc.length + l.length := by
  intro l
  induction l with
  | nil =>
    intro acc _
    simp [profileTableGo]
  | cons c0 rest ih =>
    intro acc hok
    rcases hok c0 (by simp) with ⟨p, hp⟩
    simp only [profileTableGo, hp]
    rw [ih (acc ++ [p]) (fun c hc => hok c (List.mem_cons_of_mem _ hc))]
    simp only [List.length_append, List.length_cons, List.length_nil]
    omega

theorem profileStep_acc_mem (loadFn : String → Except Unit SampleData)
    (profileFn : SourceColumn → SampleData → Except Unit ColumnProfile)
    (acc : List ColumnProfile) (t : String × List SourceColumn) (x : ColumnProfile)
    (hx : x ∈ acc) : x ∈ profileTableStep loadFn profileFn acc t := by
  cases h : loadFn t.1 with
  | error e =>
    simp only [profileTableStep, h]
    exact List.mem_append_left _ hx
  | ok sd =>
    simp only [profileTableStep, h]
    exact profileTableGo_acc_mem profileFn sd t.2 t.2 acc x hx

theorem foldl_profileStep_mem (loadFn : String → Except Unit SampleData)
    (profileFn : SourceColumn → SampleData → Except Unit ColumnProfile) :
    ∀ (tables : List (String × List SourceColumn)) (acc : List ColumnProfile)
      (x : ColumnProfile), x ∈ acc →
      x ∈ tables.foldl (profileTableStep loadFn profileFn) acc := by
  intro tables
  induction tables with
  | nil => intro acc x hx; exact hx
  | cons t rest ih =>
    intro acc x hx
    exact ih _ x (profileStep_acc_mem loadFn profileFn acc t x hx)

theorem profileStep_covers (loadFn : String → Except Unit SampleData)
    (profileFn : SourceColumn → SampleData → Except Unit ColumnProfile)
    (hwf : ∀ c sd p, profileFn c sd = Except.ok p → p.source_column = c)
    (acc : List ColumnProfile) (t : String × List SourceColumn) (c : SourceColumn)
    (hc : c ∈ t.2) :
    ∃ q ∈ profileTableStep loadFn profileFn acc t, q.source_column = c := by
  cases h : loadFn t.1 with
  | error e =>
    simp only [profileTableStep, h]
    exact ⟨empty_profile c, List.mem_append_right _ (List.mem_map.mpr ⟨c, hc, rfl⟩), rfl⟩
  | ok sd =>
    simp only [profileTableStep, h]
    exact profileTableGo_covers profileFn sd t.2 (fun d p hdp => hwf d sd p hdp) t.2 acc
      (fun d hd => hd) c hc

theorem profile_tenant_columns_covers (loadFn : String → Except Unit SampleData)
    (profileFn : SourceColumn → SampleData → Except Unit ColumnProfile)
    (hwf : ∀ c sd p, profileFn c sd = Except.ok p → p.source_column = c) :
    ∀ (tables : List (String × List SourceColumn)) (acc : List ColumnProfile)
      (t : String × List SourceColumn), t ∈ tables → ∀ c ∈ t.2,
      ∃ q ∈ tables.foldl (profileTableStep loadFn profileFn) acc, q.source_column = c := by
  intro tables
  induction tables with
  | nil => intro acc t ht; cases ht
  | cons t0 rest ih =>
    intro acc t ht c hc
    rcases List.mem_cons.mp ht with rfl | ht'
    · rcases profileStep_covers loadFn profileFn hwf acc t c hc with ⟨q, hq, hqs⟩
      exact ⟨q, foldl_profileStep_mem loadFn profileFn rest _ q hq, hqs⟩
    · exact ih _ t ht' c hc

/-- C10 counterexample: a two-column table `[a, b]` whose sample data loads,
where profiling succeeds on `a` and raises on `b`.  The batch result holds
three profiles — the real profile of `a`, then (from the `except` clause) an
empty profile for `a` again and one for `b` — so column `a` has two
profiles and the result does not contain exactly one profile per schema
column. -/
theorem C10_profiling_counterexample :
    ((profile_tenant_columns (fun _ => Except.ok sdAB) failingProfileFn
        [("tbl", [scA, scB])]).map (·.source_column)) = [scA, scA, scB] ∧
    (profile_tenant_columns (fun _ => Except.ok sdAB) failingProfileFn
        [("tbl", [scA, scB])]).length ≠ ([scA, scB] : List SourceColumn).length := by
  constructor
  · rfl
  · decide

/-- C10 (amended): no exception escapes the Profiler and no column is left
without a profile: (i) every schema column of every table receives at least
one profile in the batch result; (ii) a table whose sample data fails to
load contributes exactly one empty profile per column; (iii) a table whose
load and per-column profiling all succeed contributes exactly one profile
per column.  (When a per-column exception strikes after earlier columns of
the same table were profiled, those earlier columns keep their real
profiles and additionally receive empty ones, so "exactly one profile per
column" fails in general — see the counterexample.) -/
theorem C10_profiling_amended (loadFn : String → Except Unit SampleData)
    (profileFn : SourceColumn → SampleData → Except Unit ColumnProfile)
    (tables : List (String × List SourceColumn))
    (hwf : ∀ c sd p, profileFn c sd = Except.ok p → p.source_column = c) :
    (∀ t ∈ tables, ∀ c ∈ t.2,
      ∃ q ∈ profile_tenant_columns loadFn profileFn tables, q.source_column = c) ∧
    (∀ (tname : String) (cs : List SourceColumn), loadFn tname = Except.error () →
      profile_tenant_columns loadFn profileFn [(tname, cs)] = cs.map empty_profile) ∧
    (∀ (tname : String) (cs : List SourceColumn) (sd : SampleData),
      loadFn tname = Except.ok sd → (∀ c ∈ cs, ∃ p, profileFn c sd = Except.ok p) →
      (profile_tenant_columns loadFn profileFn [(tname, cs)]).length = cs.length) := by
  refine ⟨?_, ?_, ?_⟩
  · intro t ht c hc
    exact profile_tenant_columns_covers loadFn profileFn hwf tables [] t ht c hc
  · intro tname cs hload
    show profileTableStep loadFn profileFn [] (tname, cs) = cs.map empty_profile
    simp only [profileTableStep, hload]
    exact List.nil_append _
  · intro tname cs sd hload hok
    show (profileTableStep loadFn profileFn [] (tname, cs)).length = cs.length
    simp only [profileTableStep, hload]
    rw [profileTableGo_all_ok profileFn sd cs cs [] hok]
    simp

/-- C10 amended witness: the concrete failing profiler with a successfully
loading table, discharging the well-formedness hypothesis. -/
theorem C10_profiling_amended_witness :
    (∀ (c : SourceColumn) (sd : SampleData) (p : ColumnProfile),
      failingProfileFn c sd = Except.ok p → p.source_column = c) ∧
    ((∀ t ∈ ([("tbl", [scA, scB])] : List (String × List SourceColumn)), ∀ c ∈ t.2,
      ∃ q ∈ profile_tenant_columns (fun _ => Except.ok sdAB) failingProfileFn
        [("tbl", [scA, scB])], q.source_column = c) ∧
    (∀ (tname : String) (cs : List SourceColumn),
      (fun (_ : String) => Except.ok (ε := Unit) sdAB) tname = Except.error () →
      profile_tenant_columns (fun _ => Except.ok sdAB) failingProfileFn [(tname, cs)] =
        cs.map empty_profile) ∧
    (∀ (tname : String) (cs : List SourceColumn) (sd : SampleData),
      (fun (_ : String) => Except.ok (ε := Unit) sdAB) tname = Except.ok sd →
      (∀ c ∈ cs, ∃ p, failingProfileFn c sd = Except.ok p) →
      (profile_tenant_columns (fun _ => Except.ok sdAB) failingProfileFn
        [(tname, cs)]).length = cs.length)) :=
  ⟨fun c sd p h => by
    unfold failingProfileFn at h
    split at h
    · exact Except.noConfusion h
    · rw [← Except.ok.inj h, profile_column_source],
   C10_profiling_amended (fun _ => Except.ok sdAB) failingProfileFn [("tbl", [scA, scB])]
     (fun c sd p h => by
       unfold failingProfileFn at h
       split at h
       · exact Except.noConfusion h
       · rw [← Except.ok.inj h, profile_column_source])⟩

end SchemaXlat
